import Mathlib

set_option maxRecDepth 10000

/-!
Verification of the ProxyWarp core against its specification.

This file gives a shallow embedding, in Lean 4, of the parts of the
ProxyWarp source that the specification's testable properties talk
about:

* the `TokenStore` class (token directory with backup and
  load-from-file recovery),
* the token generation algorithm (`_generateToken`),
* the response header scrub (`onProxyRes`),
* the HTML link rewriter pipeline (`createResponseRewriter`),
* the client-side URL mapper (`getProxiedUrl`),
* the proxy request handler (`setupProxyHandler`).

JavaScript objects and `Map`s are modelled as `String → Option α`
(objects, where iteration order never matters for the modelled code
paths) or association lists (`Map`s, which the source iterates).
`Date.now()`, `crypto.randomBytes` and the content of the token file
read by `_loadTokensFromFile` are explicit parameters: the source
reads them from the environment.  Machine integers do not occur: all
JS numbers involved are integral timestamps and lengths, modelled as
`Nat`.
-/

/-! ## Generic JavaScript string primitives -/

/-- JS `String.prototype.includes` on char lists: `pat` occurs as a
contiguous substring of `s`. -/
def containsL (pat : List Char) : List Char → Bool
  | [] => pat.isEmpty
  | c :: rest => pat.isPrefixOf (c :: rest) || containsL pat rest

/-- JS `String.prototype.replace` with a *string* pattern: replaces only
the first occurrence of `pat` (left-most), leaving everything else
unchanged.  `String.prototype.replace` scans left to right. -/
def jsReplaceFirstL (pat repl : List Char) : List Char → List Char
  | [] => if pat.isEmpty then repl else []
  | c :: rest =>
    if pat.isPrefixOf (c :: rest) then repl ++ (c :: rest).drop pat.length
    else c :: jsReplaceFirstL pat repl rest

/-- JS `s.includes(pat)` on strings. -/
def jsIncludes (s pat : String) : Bool := containsL pat.data s.data

/-- JS `s.startsWith(pat)`. -/
def jsStartsWith (s pat : String) : Bool := pat.data.isPrefixOf s.data

/-- JS `s.endsWith(pat)`. -/
def jsEndsWith (s pat : String) : Bool := pat.data.isSuffixOf s.data

/-- JS `s.replace(pat, repl)` (string pattern, first occurrence only). -/
def jsReplaceFirst (s pat repl : String) : String :=
  ⟨jsReplaceFirstL pat.data repl.data s.data⟩

/-- The ASCII whitespace characters recognised by JS `\s`, `trim` and
friends (the Unicode spaces JS also accepts are not modelled). -/
def isJsWhitespace (c : Char) : Bool :=
  c = ' ' || c = '\t' || c = '\n' || c = '\r' || c = '\x0b' || c = '\x0c'

/-- JS `s.trim()` (ASCII whitespace). -/
def jsTrim (s : String) : String :=
  ⟨((s.data.dropWhile isJsWhitespace).reverse.dropWhile isJsWhitespace).reverse⟩

/-- JS `s.toLowerCase()` (ASCII case folding; the domains and tokens
the source lowercases are ASCII hostnames). -/
def jsToLower (s : String) : String := ⟨s.data.map Char.toLower⟩

/-! ## Configuration (`src/config.js`, default values) -/

def BASE_DOMAIN : String := "proxywarp.com"

def TOKEN_LENGTH : Nat := 6

def DEFAULT_PROTOCOL : String := "https"

/-! ## Token store data model (`tokenStore.js`) -/

/-- The value stored for a token: `{ domain, protocol, timestamp }`. -/
structure DomainInfo where
  domain : String
  protocol : String
  timestamp : Nat
  deriving Repr, DecidableEq

/-- JS object keyed by strings. -/
def JsObj (α : Type) := String → Option α

/-- Update/insert a key of a JS object. -/
def JsObj.set (m : JsObj α) (k : String) (v : α) : JsObj α :=
  fun k' => if k' = k then some v else m k'

/-- The empty JS object `{}`. -/
def JsObj.empty : JsObj α := fun _ => none

/-- JS `Map.prototype.get` on an insertion-ordered association list. -/
def listGet (l : List (String × α)) (k : String) : Option α :=
  match l with
  | [] => none
  | (k', v) :: rest => if k' = k then some v else listGet rest k

/-- JS `Map.prototype.set`: overwrite in place if the key exists
(keeping its insertion position), else append. -/
def listSet (l : List (String × α)) (k : String) (v : α) : List (String × α) :=
  match l with
  | [] => [(k, v)]
  | (k', v') :: rest => if k' = k then (k, v) :: rest else (k', v') :: listSet rest k v

/-- In-memory state of the `TokenStore` singleton.  The fields `dirty`,
`lastSave`, `saveTimeout` and `isLoading` only schedule disk I/O and
re-entrancy of timers; in this sequential model of the public
operations they are dropped (`isLoading` is always `false` when a
public call runs to completion). -/
structure TokenStore where
  /-- Field `this.tokens`: token → domain info (a JS object). -/
  tokens : JsObj DomainInfo
  /-- Field `this.domainMapping`: domain → token (a JS object). -/
  domainMapping : JsObj String
  /-- Field `this.backupTokens`: a JS `Map`, insertion ordered (the `source`
  tag stored alongside is diagnostic only and not modelled). -/
  backupTokens : List (String × DomainInfo)
  /-- Field `this.lastLoad` (ms timestamp). -/
  lastLoad : Nat

/-- The state established by the constructor. -/
def TokenStore.initial : TokenStore :=
  { tokens := JsObj.empty, domainMapping := JsObj.empty, backupTokens := [], lastLoad := 0 }

/-- Outcome of one disk read attempted by `_loadTokensFromFile`: the
file parsed to an object (`success`, one entry per key, in object
order), failed to parse (`parseError`), was absent (`missing`), or the
read itself threw (`ioError`).  The file is shared with other
processes, so its content is an input. -/
inductive LoadEvent where
  | success (entries : List (String × DomainInfo))
  | parseError
  | missing
  | ioError
  deriving Repr

/-- Model of `TokenStore._loadTokensFromFile`, at wall time `now`, observing
`ev` from disk.  On `success` the token object is replaced wholesale,
`domainMapping` is rebuilt from scratch skipping entries with a falsy
`domain`, and the backup is extended; on `parseError`/`ioError` with a
non-empty backup, `tokens` is rebuilt from the backup (`protocol` and
`timestamp` defaulted when falsy) but `domainMapping` is *not* cleared
first; on `ioError` with an empty backup both maps are reset.
`lastLoad` is updated only on `success`. -/
def TokenStore.loadTokensFromFile (s : TokenStore) (now : Nat) (ev : LoadEvent) : TokenStore :=
  match ev with
  | .success entries =>
    let tokens := entries.foldl (fun m e => m.set e.1 e.2) JsObj.empty
    let dm := entries.foldl
      (fun m e => if e.2.domain ≠ "" then m.set e.2.domain e.1 else m) JsObj.empty
    let backup := entries.foldl
      (fun b e => if e.2.domain ≠ "" then listSet b e.1 e.2 else b) s.backupTokens
    { s with tokens := tokens, domainMapping := dm, backupTokens := backup, lastLoad := now }
  | .parseError =>
    if s.backupTokens.isEmpty then s
    else
      let tokens := s.backupTokens.foldl
        (fun m e => m.set e.1
          { domain := e.2.domain
            protocol := if e.2.protocol = "" then DEFAULT_PROTOCOL else e.2.protocol
            timestamp := if e.2.timestamp = 0 then now else e.2.timestamp }) JsObj.empty
      let dm := s.backupTokens.foldl (fun m e => m.set e.2.domain e.1) s.domainMapping
      { s with tokens := tokens, domainMapping := dm }
  | .missing => s
  | .ioError =>
    if s.backupTokens.isEmpty then
      { s with tokens := JsObj.empty, domainMapping := JsObj.empty }
    else
      let tokens := s.backupTokens.foldl
        (fun m e => m.set e.1
          { domain := e.2.domain
            protocol := if e.2.protocol = "" then DEFAULT_PROTOCOL else e.2.protocol
            timestamp := if e.2.timestamp = 0 then now else e.2.timestamp }) JsObj.empty
      let dm := s.backupTokens.foldl (fun m e => m.set e.2.domain e.1) s.domainMapping
      { s with tokens := tokens, domainMapping := dm }

/-- Model of `TokenStore.forceReload` (sans the returned count). -/
def TokenStore.forceReload (s : TokenStore) (now : Nat) (ev : LoadEvent) : TokenStore :=
  s.loadTokensFromFile now ev

/-! ## Token generation (`TokenStore._generateToken`) -/

/-- The token alphabet of `_generateToken`. -/
def tokenAlphabet : String := "abcdefghijklmnopqrstuvwxyz0123456789"

/-- The mapping `'abc…789'.charAt(b % 36)` for one random byte `b`. -/
def byteToTokenChar (b : Nat) : Char := tokenAlphabet.data.getD (b % 36) 'a'

/-- One candidate token from `TOKEN_LENGTH` random bytes. -/
def bytesToToken (bytes : List Nat) : String := ⟨bytes.map byteToTokenChar⟩

/-- The base-36 digit characters used by JS `Number.prototype.toString(36)`. -/
def base36Digit (d : Nat) : Char := "0123456789abcdefghijklmnopqrstuvwxyz".data.getD d '0'

/-- The suffix `Date.now().toString(36).slice(-4)`: the last four base-36 digits
of `now`, or all of them when `now` has fewer than four digits
(`slice(-4)` returns the whole string when it is shorter than 4).
Closed form: with `n ≥ 36³` the string has at least four digits and
`slice(-4)` keeps exactly the last four. -/
def base36SliceLast4 (n : Nat) : String :=
  if n < 36 then ⟨[base36Digit (n % 36)]⟩
  else if n < 36 * 36 then ⟨[base36Digit (n / 36 % 36), base36Digit (n % 36)]⟩
  else if n < 36 * 36 * 36 then
    ⟨[base36Digit (n / (36 * 36) % 36), base36Digit (n / 36 % 36), base36Digit (n % 36)]⟩
  else
    ⟨[base36Digit (n / (36 * 36 * 36) % 36), base36Digit (n / (36 * 36) % 36),
      base36Digit (n / 36 % 36), base36Digit (n % 36)]⟩

/-- The do/while loop of `_generateToken`: `k` retries remain before
the escape hatch fires.  Draw `i` is the `i`-th call to
`crypto.randomBytes`.  With `k = 0` (the 11th attempt, `attempts > 10`)
the candidate gets the time suffix appended and is returned *without*
re-checking membership in `tokens`. -/
def generateTokenGo (tokens : JsObj DomainInfo) (draws : Nat → List Nat) (suffix : String) :
    Nat → Nat → String
  | 0, i => bytesToToken (draws i) ++ suffix
  | k + 1, i =>
    let t := bytesToToken (draws i)
    if (tokens t).isSome then generateTokenGo tokens draws suffix k (i + 1) else t

/-- Model of `TokenStore._generateToken`, with the random draws and the wall
time as explicit inputs.  Attempts 1–10 each draw `TOKEN_LENGTH` bytes
and retry on collision with `this.tokens`; the 11th draw appends
`Date.now().toString(36).slice(-4)` and breaks out unconditionally. -/
def generateToken (tokens : JsObj DomainInfo) (draws : Nat → List Nat) (now : Nat) : String :=
  generateTokenGo tokens draws (base36SliceLast4 now) 10 0

/-! ## Token store public operations -/

/-- The shared tail of a successful directory hit (both in
`getTokenForDomain` and `getDomainInfoFromToken`): refresh the entry's
timestamp and mirror the refreshed entry into the backup (the
`source` tag differs between the two call sites but is diagnostic
only and not modelled). -/
def TokenStore.getDomainInfoHit (s : TokenStore) (token : String) (info : DomainInfo)
    (now : Nat) : Option DomainInfo × TokenStore :=
  let info' := { info with timestamp := now }
  (some info',
    { s with tokens := s.tokens.set token info',
             backupTokens := listSet s.backupTokens token info' })

/-- New-token allocation at the end of `getTokenForDomain`: run
`_generateToken`, insert the entry into `tokens`, `domainMapping` and
the backup, and return the token. -/
def TokenStore.allocateToken (s : TokenStore) (domain : String) (now : Nat)
    (draws : Nat → List Nat) : String × TokenStore :=
  let token := generateToken s.tokens draws now
  let info : DomainInfo := { domain := domain, protocol := DEFAULT_PROTOCOL, timestamp := now }
  (token,
    { s with tokens := s.tokens.set token info,
             domainMapping := s.domainMapping.set domain token,
             backupTokens := listSet s.backupTokens token info })

/-- Continuation of `getTokenForDomain` after the first
`domainMapping` probe failed: the staleness-gated reload
(`now - lastLoad > 60000`) with its re-probe (which, on a hit, refreshes
the timestamp but does not touch the backup), then allocation. -/
def TokenStore.getTokenForDomainMiss (s : TokenStore) (domain : String) (now : Nat)
    (draws : Nat → List Nat) (ev : LoadEvent) : String × TokenStore :=
  if now - s.lastLoad > 60000 then
    let s₁ := s.loadTokensFromFile now ev
    match s₁.domainMapping domain with
    | some token =>
      if token ≠ "" then
        match s₁.tokens token with
        | some info =>
          (token, { s₁ with tokens := s₁.tokens.set token { info with timestamp := now } })
        | none => s₁.allocateToken domain now draws
      else s₁.allocateToken domain now draws
    | none => s₁.allocateToken domain now draws
  else s.allocateToken domain now draws

/-- Model of `TokenStore.getTokenForDomain(domain)` at wall time `now`; `draws`
feeds `_generateToken` and `ev` is what a disk reload (taken only when
`now - lastLoad > 60000`) would observe.  Truthiness: a missing key and
the empty-string token are both falsy in `if (this.domainMapping[domain])`. -/
def TokenStore.getTokenForDomain (s : TokenStore) (domain : String) (now : Nat)
    (draws : Nat → List Nat) (ev : LoadEvent) : String × TokenStore :=
  match s.domainMapping (jsToLower domain) with
  | some token =>
    if token ≠ "" then
      match s.tokens token with
      | some info => (token, (s.getDomainInfoHit token info now).2)
      | none => s.getTokenForDomainMiss (jsToLower domain) now draws ev
    else s.getTokenForDomainMiss (jsToLower domain) now draws ev
  | none => s.getTokenForDomainMiss (jsToLower domain) now draws ev

/-- Model of `TokenStore.getDomainInfoFromToken(token)` at wall time `now`; `ev`
is what a reload (taken only on a miss when `now - lastLoad > 30000`)
would observe.  On a miss the entry is first looked up in the backup
and, if found there, restored into `tokens`/`domainMapping` (with falsy
`protocol` defaulted) and returned directly. -/
def TokenStore.getDomainInfoFromToken (s : TokenStore) (token : String) (now : Nat)
    (ev : LoadEvent) : Option DomainInfo × TokenStore :=
  if token = "" then (none, s)
  else
    match s.tokens (jsTrim token) with
    | some info => s.getDomainInfoHit (jsTrim token) info now
    | none =>
      match listGet s.backupTokens (jsTrim token) with
      | some b =>
        let info : DomainInfo :=
          { domain := b.domain
            protocol := if b.protocol = "" then DEFAULT_PROTOCOL else b.protocol
            timestamp := now }
        (some info,
          { s with tokens := s.tokens.set (jsTrim token) info,
                   domainMapping := s.domainMapping.set b.domain (jsTrim token) })
      | none =>
        let s₁ := if now - s.lastLoad > 30000 then s.loadTokensFromFile now ev else s
        match s₁.tokens (jsTrim token) with
        | some info => s₁.getDomainInfoHit (jsTrim token) info now
        | none => (none, s₁)

/-! ## Claim C1: the bijection property and no-load reachability -/

/-- The bijection property of the token directory, exactly as the
specification states it: for every token `t` present in `tokens`,
`domainMapping[tokens[t].domain] == t`, and for every domain `d`
present in `domainMapping`, `tokens[domainMapping[d]].domain == d`
(in particular `tokens[domainMapping[d]]` exists). -/
def TokenStore.Bijective (s : TokenStore) : Prop :=
  (∀ t info, s.tokens t = some info → s.domainMapping info.domain = some t) ∧
  (∀ d t, s.domainMapping d = some t → ∃ info, s.tokens t = some info ∧ info.domain = d)

/-- Strengthened induction invariant for the bijection: the bijection
itself, absence of the (falsy) empty-string token, and coherence of
the backup with `tokens` (every backed-up token is live with the same
domain).  The last two conjuncts hold on every load-free run and make
the backup-restore branch of `getDomainInfoFromToken` unreachable. -/
def TokenStore.Coherent (s : TokenStore) : Prop :=
  s.Bijective ∧ s.tokens "" = none ∧
  (∀ t b, listGet s.backupTokens t = some b →
    ∃ info, s.tokens t = some info ∧ info.domain = b.domain)

/-- States reachable from the freshly constructed store by sequences
of the two public operations in which no call reloads the token file
(its staleness gate never fires) and every `_generateToken` run
returns a token that is absent from `tokens` and non-empty (as on the
normal ≤ 10-attempt path with 6-byte draws). -/
inductive TokenStore.NoLoadReachable : TokenStore → Prop where
  | init : TokenStore.NoLoadReachable TokenStore.initial
  | stepTokenForDomain (s : TokenStore) (domain : String) (now : Nat)
      (draws : Nat → List Nat) (ev : LoadEvent)
      (h : TokenStore.NoLoadReachable s)
      (hnoload : ¬ now - s.lastLoad > 60000)
      (hfresh : s.tokens (generateToken s.tokens draws now) = none)
      (hne : generateToken s.tokens draws now ≠ "") :
      TokenStore.NoLoadReachable (s.getTokenForDomain domain now draws ev).2
  | stepDomainInfo (s : TokenStore) (token : String) (now : Nat) (ev : LoadEvent)
      (h : TokenStore.NoLoadReachable s)
      (hnoload : ¬ now - s.lastLoad > 30000) :
      TokenStore.NoLoadReachable (s.getDomainInfoFromToken token now ev).2

/-- The directory state produced by a single `getDomainInfoFromToken`
call on a fresh store whose staleness gate fires and whose reload
observes a token file in which two distinct tokens map to the same
domain — exactly what two proxy processes sharing one `DB_FILE` write
after each allocating a token for that domain. -/
def TokenStore.dupDomainState : TokenStore :=
  (TokenStore.initial.getDomainInfoFromToken "x" 31000
    (.success [("t1", ⟨"d", "https", 5⟩), ("t2", ⟨"d", "https", 5⟩)])).2

/-! ## Claims C2 and C3: token generation inputs and the alphabet -/

/-- A prior `this.tokens` state that already contains both the
all-`'a'` 6-byte candidate and that candidate with the time suffix
`"0000"` appended — the failing input for the collision-escape path. -/
def c2Tokens : JsObj DomainInfo :=
  (JsObj.empty.set "aaaaaa" ⟨"a.example", "https", 1⟩).set "aaaaaa0000" ⟨"b.example", "https", 1⟩

/-- Character class of the specified token regex `^[a-z0-9]+$`. -/
def isLowerAlnum (c : Char) : Bool :=
  ('a' ≤ c && c ≤ 'z') || ('0' ≤ c && c ≤ '9')

/-! ## Claim C5: response header scrub (`onProxyRes`) -/

/-- JS `delete obj[key]` on a JS object. -/
def JsObj.del (m : JsObj α) (k : String) : JsObj α :=
  fun k' => if k' = k then none else m k'

/-- The header mutation performed by `onProxyRes` before any body
handling, in source order: the security-header deletes (Node's HTTP
parser delivers `proxyRes.headers` with lower-cased keys; the source's
two capitalised deletes are modelled verbatim and hit nothing), the
four permissive CORS headers, and the `X-Frame-Options: ALLOWALL`
override. -/
def scrubResponseHeaders (h : JsObj String) : JsObj String :=
  ((((((((((((h.del "x-frame-options").del "X-Frame-Options").del
    "content-security-policy").del "Content-Security-Policy").del
    "content-security-policy-report-only").del "feature-policy").del
    "permissions-policy").set "access-control-allow-origin" "*").set
    "access-control-allow-methods" "GET, POST, PUT, PATCH, DELETE, OPTIONS").set
    "access-control-allow-headers"
    "Origin, X-Requested-With, Content-Type, Accept, Authorization").set
    "access-control-allow-credentials" "true").set "x-frame-options" "ALLOWALL")

/-! ## Claim C7: the HTML interception gate -/

/-- Model of `shouldProcessResponse` (`linkRewriter.js`): the upstream
`content-type` header (defaulted to `''`) *contains* `text/html`. -/
def shouldProcessResponse (headers : JsObj String) : Bool :=
  jsIncludes ((headers "content-type").getD "") "text/html"

/-- The `onProxyRes` content-type dispatch: the body is handed to the
HTML rewriter iff `contentType.includes('text/html')` and the
rewriter (which re-checks `shouldProcessResponse`) accepts it;
otherwise the body is piped through unmodified. -/
def handedToRewriter (headers : JsObj String) : Bool :=
  if jsIncludes ((headers "content-type").getD "") "text/html" then
    shouldProcessResponse headers
  else false

/-- The gate as the specification words it: the `Content-Type` value
*begins with* `text/html`.  (Spec-side definition, for comparison with
the source's `includes`-based gate.) -/
def specContentTypeBeginsWith (headers : JsObj String) : Bool :=
  jsStartsWith ((headers "content-type").getD "") "text/html"

/-- Upstream headers on which the two gates disagree: a `content-type`
that contains `text/html` without beginning with it. -/
def c7Headers : JsObj String :=
  JsObj.empty.set "content-type" "application/x-see-also; embedded=text/html"

/-! ## Claim C9: `buildProxyUrl`, both copies -/

/-- Model of `buildProxyUrl` as defined in `src/lib/utils.js` (lines 78–80, the
module the link rewriter `require`s): plain concatenation, no
leading-slash normalisation. -/
def buildProxyUrl (token pathAndQuery : String) : String :=
  "https://" ++ token ++ "." ++ BASE_DOMAIN ++ pathAndQuery

/-- The second copy of `buildProxyUrl` (utilities module bundled with
`linkRewriter.js`, lines 218–225): a non-empty `pathAndQuery` that does
not start with `'/'` gets one prepended. -/
def buildProxyUrlNormalizing (token pathAndQuery : String) : String :=
  let p := if pathAndQuery ≠ "" ∧ jsStartsWith pathAndQuery "/" = false
           then "/" ++ pathAndQuery else pathAndQuery
  "https://" ++ token ++ "." ++ BASE_DOMAIN ++ p

/-- The result shape the claim specifies:
`"https://" + token + "." + BASE_DOMAIN` followed by the path-and-query
with a leading `/` guaranteed.  (Spec-side definition.) -/
def specProxyUrl (token pathAndQuery : String) : String :=
  "https://" ++ token ++ "." ++ BASE_DOMAIN ++
    (if jsStartsWith pathAndQuery "/" = true then pathAndQuery else "/" ++ pathAndQuery)

/-! ## Claim C8: token extraction from the Host header -/

/-- Token extraction in `setupProxyHandler`:
`host.replace('.' + BASE_DOMAIN, '')`, i.e. removal of the *first*
occurrence of `"." + BASE_DOMAIN` in the Host value (reached only when
`host` is non-empty, differs from `BASE_DOMAIN`, and ends with
`"." + BASE_DOMAIN`). -/
def extractToken (host : String) : String :=
  jsReplaceFirst host ("." ++ BASE_DOMAIN) ""

/-- The extraction the specification words: `Host[: -len("."+BaseDomain)]`,
removal of the final suffix.  (Spec-side definition.) -/
def specSuffixToken (host : String) : String :=
  ⟨host.data.take (host.data.length - ("." ++ BASE_DOMAIN).data.length)⟩

/-! ## Claim C10: the client-side URL mapper -/

/-- The components of a parsed URL that the source reads
(`u.hostname`, `u.pathname`, `u.search`, `u.hash`). -/
structure UrlParts where
  hostname : String
  pathname : String
  search : String
  hash : String
  deriving Repr, DecidableEq

/-- A model of `new URL(u)` for the `http(s)://` URLs the source feeds
it.  Scheme, `user@`-info, host, `:port` (digits only), path, query
and fragment are split as WHATWG does for special URLs: the hostname
is ASCII-lowercased, an absent path becomes `"/"`, `search`/`hash`
include their `?`/`#` prefix and are empty when the component is
empty.  Other schemes, an empty host, or a non-numeric port yield
`none` (in JS, `new URL` throws and the call sites catch).
Dot-segment, backslash and percent-encoding normalisation are not
modelled. -/
def parseHttpUrl (u : String) : Option UrlParts :=
  let afterScheme : Option (List Char) :=
    if jsStartsWith u "http://" then some (u.data.drop 7)
    else if jsStartsWith u "https://" then some (u.data.drop 8)
    else none
  match afterScheme with
  | none => none
  | some rest =>
    let authority := rest.takeWhile (fun c => !(c = '/' || c = '?' || c = '#'))
    let tail := rest.drop authority.length
    let hostPort := (authority.reverse.takeWhile (fun c => c ≠ '@')).reverse
    let host := hostPort.takeWhile (fun c => c ≠ ':')
    let portPart := hostPort.drop host.length
    if host.isEmpty then none
    else if !(portPart.drop 1).all Char.isDigit then none
    else
      let pathRaw := tail.takeWhile (fun c => !(c = '?' || c = '#'))
      let tail2 := tail.drop pathRaw.length
      let qRaw := if tail2.head? = some '?' then (tail2.drop 1).takeWhile (fun c => c ≠ '#') else []
      let tail3 := tail2.drop (if tail2.head? = some '?' then qRaw.length + 1 else 0)
      let hRaw := if tail3.head? = some '#' then tail3.drop 1 else []
      some { hostname := jsToLower ⟨host⟩
             pathname := if pathRaw.isEmpty then "/" else ⟨pathRaw⟩
             search := if qRaw.isEmpty then "" else ⟨'?' :: qRaw⟩
             hash := if hRaw.isEmpty then "" else ⟨'#' :: hRaw⟩ }

/-- The constant `PROXY_URL_PREFIX` of the injected client script:
`'https://' + PROXY_TOKEN + '.' + PROXY_BASE_DOMAIN`. -/
def PROXY_URL_PREFIX (token baseDomain : String) : String :=
  "https://" ++ token ++ "." ++ baseDomain

/-- Model of `getProxiedUrl` of the injected client script (`clientScript.js`),
parametrised by the script's three interpolated constants
`PROXY_TOKEN`, `PROXY_BASE_DOMAIN` and `TARGET_DOMAIN`.  Branches in
source order: already-proxied URLs (containing the base domain) pass
through; absolute `http(s)` URLs are proxied iff their hostname is the
target domain or its `www.` variant; absolute paths are prefixed;
`#`, `javascript:`, `mailto:`, `tel:` and relative URLs pass through;
a URL-parse failure is caught and the input returned. -/
def getProxiedUrl (token baseDomain targetDomain url : String) : String :=
  if jsIncludes url baseDomain then url
  else if jsStartsWith url "http://" || jsStartsWith url "https://" then
    match parseHttpUrl url with
    | some u =>
      if u.hostname = targetDomain ∨ u.hostname = "www." ++ targetDomain then
        PROXY_URL_PREFIX token baseDomain ++ u.pathname ++ u.search ++ u.hash
      else url
    | none => url
  else if jsStartsWith url "/" then PROXY_URL_PREFIX token baseDomain ++ url
  else if jsStartsWith url "#" then url
  else if jsStartsWith url "javascript:" then url
  else if jsStartsWith url "mailto:" || jsStartsWith url "tel:" then url
  else url

/-! ## Claim C6: the subdomain request handler -/

/-- What the handler does with a request: pass it along the middleware
chain (non-subdomain hosts), dispatch it to the reverse proxy for a
target, or answer 400 with the error page. -/
inductive ProxyOutcome where
  | next
  | dispatch (target : DomainInfo)
  | badRequest
  deriving Repr, DecidableEq

/-- The `Referer`-recovery attempt of `setupProxyHandler`: parse the
`Referer` header (a parse failure is caught), and if its hostname ends
with `"." + BASE_DOMAIN`, extract the referer's token (again by
first-occurrence `replace`) and look it up in the token store. -/
def refererRecovery (s : TokenStore) (referer : Option String) (now : Nat) (ev : LoadEvent) :
    Option DomainInfo × TokenStore :=
  match referer with
  | none => (none, s)
  | some r =>
    match parseHttpUrl r with
    | none => (none, s)
    | some u =>
      if jsEndsWith u.hostname ("." ++ BASE_DOMAIN) = true then
        s.getDomainInfoFromToken (jsReplaceFirst u.hostname ("." ++ BASE_DOMAIN) "") now ev
      else (none, s)

/-- The per-request resolution flow of `setupProxyHandler`: skip
non-subdomain hosts; then try, in order, the resolver cache (`cached`
is the `requestCache` entry for `token:<token>`), the token store, the
`Referer` recovery, and one forced-reload retry; answer 400 if all
fail.  `ev1`, `ev2`, `ev4` are what the staleness-gated reloads inside
the three store lookups would observe, `ev3` what `forceReload` reads.
The 30 s watchdog, the cache TTL bookkeeping, and the proxying itself
are I/O and are not modelled. -/
def setupProxyHandler (s : TokenStore) (host : Option String) (cached : Option DomainInfo)
    (referer : Option String) (now : Nat) (ev1 ev2 ev3 ev4 : LoadEvent) :
    ProxyOutcome × TokenStore :=
  match host with
  | none => (.next, s)
  | some host =>
    if host = "" ∨ host = BASE_DOMAIN ∨ jsEndsWith host ("." ++ BASE_DOMAIN) = false then
      (.next, s)
    else
      match cached with
      | some t => (.dispatch t, s)
      | none =>
        match s.getDomainInfoFromToken (extractToken host) now ev1 with
        | (some t, s1) => (.dispatch t, s1)
        | (none, s1) =>
          match refererRecovery s1 referer now ev2 with
          | (some t, s2) => (.dispatch t, s2)
          | (none, s2) =>
            match (s2.forceReload now ev3).getDomainInfoFromToken (extractToken host) now ev4 with
            | (some t, s3) => (.dispatch t, s3)
            | (none, s3) => (.badRequest, s3)

/-! ## Claim C4: the HTML rewriter (`createResponseRewriter`)

The five transformations are applied to the buffered body in source
order.  The three regex rules are modelled as explicit left-to-right
scanners (the semantics of `String.replace` with a `g`-flagged regex):
at each position the matcher tries the pattern; on a match the
replacement is emitted and scanning resumes after the matched text.
The `i` flag is ASCII-case-insensitive matching.  The optional
`(protocol:)?` group is matched with commitment (its two alternatives
can never both start a successful match, since `http(s)` never begins
with `/`); the optional `(www\.)?` group is matched with genuine
backtracking. -/

/-- ASCII-case-insensitive character comparison (regex `i` flag). -/
def ciEq (a b : Char) : Bool := a.toLower = b.toLower

/-- The two JS quote characters of `["']`. -/
def isQuote (c : Char) : Bool := c = '"' || c = Char.ofNat 39

/-- Match a literal case-insensitively at the head; return the rest. -/
def matchLitCI : List Char → List Char → Option (List Char)
  | [], s => some s
  | _ :: _, [] => none
  | p :: ps, c :: cs => if ciEq c p then matchLitCI ps cs else none

/-- The `(href|src)=` attribute alternation (case-insensitive),
returning the attribute text as matched (the replacement re-emits the
capture) and the rest after it. -/
def matchAttr (s : List Char) : Option (List Char × List Char) :=
  match matchLitCI "href".data s with
  | some rest => some (s.take 4, rest)
  | none =>
    match matchLitCI "src".data s with
    | some rest => some (s.take 3, rest)
    | none => none

/-- The tail `([^"']*)["']`: the greedy run of non-quote characters, which ends
at the first quote (the closing `["']` need not equal the opening
quote); `none` when no quote follows.  Returns (run, closing quote,
rest). -/
def matchQuotedRun (s : List Char) : Option (List Char × Char × List Char) :=
  let run := s.takeWhile (fun c => !(isQuote c))
  match s.drop run.length with
  | c :: rest => some (run, c, rest)
  | [] => none

/-- The escaped-domain pattern: `targetDomain.replace('.', '\\.')`
escapes only the **first** dot, so later dots stay regex wildcards.
Each entry is (character, isWildcard). -/
def domainPatternGo : List Char → Bool → List (Char × Bool)
  | [], _ => []
  | c :: cs, seenDot =>
    if c = '.' then (c, seenDot) :: domainPatternGo cs true
    else (c, false) :: domainPatternGo cs seenDot

def domainPattern (domain : String) : List (Char × Bool) :=
  domainPatternGo domain.data false

/-- Match the domain pattern: literal entries case-insensitively, a
wildcard entry as regex `.` (anything but a newline). -/
def matchDomainPat : List (Char × Bool) → List Char → Option (List Char)
  | [], s => some s
  | _ :: _, [] => none
  | (p, wild) :: ps, c :: cs =>
    if (if wild then c ≠ '\n' else ciEq c p = true) then matchDomainPat ps cs else none

/-- One alternative of rule 1 after the opening quote:
`(proto:)?//(www\.)?domain([^"']*)["']` with the optional groups fixed
to `useProto`/`useWww`. -/
def rule1Combo (proto : List Char) (pat : List (Char × Bool)) (useProto useWww : Bool)
    (s : List Char) : Option (List Char × Char × List Char) :=
  match if useProto then matchLitCI (proto ++ [':']) s else some s with
  | none => none
  | some r4 =>
    match matchLitCI ['/', '/'] r4 with
    | none => none
    | some r5 =>
      match if useWww then matchLitCI "www.".data r5 else some r5 with
      | none => none
      | some r6 =>
        match matchDomainPat pat r6 with
        | none => none
        | some r7 => matchQuotedRun r7

/-- Rule 1 matcher at one position:
`(href|src)=["'](proto:)?//(www\.)?domain([^"']*)["']` (gi), with the
regex's greedy preference order over the two optional groups.
On a match, returns the replacement
`attr="buildProxyUrl(token, path)"` and the rest after the match. -/
def tryRule1At (targetProtocol targetDomain token : String) (s : List Char) :
    Option (List Char × List Char) :=
  match matchAttr s with
  | none => none
  | some (attr, r1) =>
    match r1 with
    | '=' :: q :: r3 =>
      if isQuote q then
        let pat := domainPattern targetDomain
        let res :=
          match rule1Combo targetProtocol.data pat true true r3 with
          | some r => some r
          | none =>
            match rule1Combo targetProtocol.data pat true false r3 with
            | some r => some r
            | none =>
              match rule1Combo targetProtocol.data pat false true r3 with
              | some r => some r
              | none => rule1Combo targetProtocol.data pat false false r3
        match res with
        | none => none
        | some (path, _, r7) =>
          some (attr ++ ('=' :: '"' :: (buildProxyUrl token ⟨path⟩).data ++ ['"']), r7)
      else none
    | _ => none

/-- Rule 2 matcher at one position: `\s(href|src)=["']/([^"']*)["']`
(gi).  The replacement starts with a literal space (the matched
whitespace character is not preserved) and uses
`buildProxyUrl(token, '/' + path)`. -/
def tryRule2At (token : String) (s : List Char) : Option (List Char × List Char) :=
  match s with
  | [] => none
  | c :: r1 =>
    if isJsWhitespace c then
      match matchAttr r1 with
      | none => none
      | some (attr, r2) =>
        match r2 with
        | '=' :: q :: '/' :: r4 =>
          if isQuote q then
            match matchQuotedRun r4 with
            | some (path, _, r5) =>
              some (' ' :: (attr ++ ('=' :: '"' ::
                (buildProxyUrl token ⟨'/' :: path⟩).data ++ ['"'])), r5)
            | none => none
          else none
        | _ => none
    else none

/-- The tail `action=["']([^"']*)["']` (case-insensitive `action`); returns the
consumed original text, the action URL, and the rest. -/
def formActionTail (s : List Char) : Option (List Char × List Char × List Char) :=
  match matchLitCI "action=".data s with
  | none => none
  | some r1 =>
    match r1 with
    | q :: r2 =>
      if isQuote q then
        match matchQuotedRun r2 with
        | some (url, closing, r3) => some (s.take 7 ++ (q :: (url ++ [closing])), url, r3)
        | none => none
      else none
    | [] => none

/-- The replacement callback of rule 3 (`<form …action=…`): keep
already-proxied actions (containing `BASE_DOMAIN`); rewrite
same-origin absolute URLs via `new URL` (a parse failure is caught and
keeps the match); rewrite absolute paths; keep anything else. -/
def rule3Replacement (token targetDomain : String)
    (formOrig group1 consumedAction actionUrl : List Char) : List Char :=
  let actionStr : String := ⟨actionUrl⟩
  let keep := formOrig ++ group1 ++ consumedAction
  if jsIncludes actionStr BASE_DOMAIN then keep
  else if jsStartsWith actionStr "http" then
    match parseHttpUrl actionStr with
    | some u =>
      if u.hostname = targetDomain ∨ u.hostname = "www." ++ targetDomain then
        "<form".data ++ group1 ++ ("action=".data ++ '"' ::
          (buildProxyUrl token ⟨u.pathname.data ++ u.search.data⟩).data ++ ['"'])
      else keep
    | none => keep
  else if jsStartsWith actionStr "/" then
    "<form".data ++ group1 ++ ("action=".data ++ '"' ::
      (buildProxyUrl token actionStr).data ++ ['"'])
  else keep

/-- One backtracking attempt of rule 3 with `([^>]*)` bound to
`run.take k`. -/
def tryRule3Attempt (token targetDomain : String) (formOrig run after : List Char) (k : Nat) :
    Option (List Char × List Char) :=
  match formActionTail (run.drop k ++ after) with
  | none => none
  | some (consumedAction, actionUrl, rest) =>
    some (rule3Replacement token targetDomain formOrig (run.take k) consumedAction actionUrl,
      rest)

/-- Greedy backtracking over the `([^>]*)` group: largest `k` first. -/
def tryRule3Go (token targetDomain : String) (formOrig run after : List Char) :
    Nat → Option (List Char × List Char)
  | 0 => tryRule3Attempt token targetDomain formOrig run after 0
  | k + 1 =>
    match tryRule3Attempt token targetDomain formOrig run after (k + 1) with
    | some r => some r
    | none => tryRule3Go token targetDomain formOrig run after k

/-- Rule 3 matcher at one position:
`<form([^>]*)action=["']([^"']*)["']` (gi). -/
def tryRule3At (token targetDomain : String) (s : List Char) :
    Option (List Char × List Char) :=
  match matchLitCI "<form".data s with
  | none => none
  | some r1 =>
    let run := r1.takeWhile (fun c => c ≠ '>')
    tryRule3Go token targetDomain (s.take 5) run (r1.drop run.length) run.length

/-- Does `/<base\s+[^>]*>/i` match starting here? -/
def tryBaseTagAt (s : List Char) : Bool :=
  match matchLitCI "<base".data s with
  | none => false
  | some r1 =>
    match r1 with
    | c :: r2 =>
      if isJsWhitespace c then
        match (r2.dropWhile isJsWhitespace).dropWhile (fun c => c ≠ '>') with
        | '>' :: _ => true
        | _ => false
      else false
    | [] => false

/-- The test `/<base\s+[^>]*>/i.test(body)`. -/
def existsBaseTag : List Char → Bool
  | [] => false
  | c :: rest => tryBaseTagAt (c :: rest) || existsBaseTag rest

/-- The `/<head[^>]*>/i` matcher at one position; returns the matched text
and the rest. -/
def tryHeadAt (s : List Char) : Option (List Char × List Char) :=
  match matchLitCI "<head".data s with
  | none => none
  | some r1 =>
    let body := r1.takeWhile (fun c => c ≠ '>')
    match r1.drop body.length with
    | '>' :: r2 => some (s.take (5 + body.length + 1), r2)
    | _ => none

/-- First-occurrence replacement of `/<head[^>]*>/i` by
`match + insertion` (the base-tag injection re-emits the match and
appends the `<base>` line). -/
def replaceHeadFirst (insertion : List Char) : List Char → List Char
  | [] => []
  | c :: rest =>
    match tryHeadAt (c :: rest) with
    | some (matched, after) => matched ++ insertion ++ after
    | none => c :: replaceHeadFirst insertion rest

/-- Generic global regex replace: scan left to right, at each position
try the matcher; on a match emit the replacement and resume after the
matched text (every matcher consumes at least one character, and the
fuel is initialised to the input length). -/
def scanReplace (tryAt : List Char → Option (List Char × List Char)) :
    Nat → List Char → List Char
  | 0, s => s
  | _ + 1, [] => []
  | fuel + 1, c :: rest =>
    match tryAt (c :: rest) with
    | some (repl, after) => repl ++ scanReplace tryAt fuel after
    | none => c :: scanReplace tryAt fuel rest

/-- Rule 1 applied globally. -/
def applyRule1 (info : DomainInfo) (token : String) (s : List Char) : List Char :=
  scanReplace (tryRule1At info.protocol info.domain token) s.length s

/-- Rule 2 applied globally. -/
def applyRule2 (token : String) (s : List Char) : List Char :=
  scanReplace (tryRule2At token) s.length s

/-- Rule 3 applied globally. -/
def applyRule3 (info : DomainInfo) (token : String) (s : List Char) : List Char :=
  scanReplace (tryRule3At token info.domain) s.length s

/-- Stage 4: if no `<base …>` tag exists, insert
`\n<base href="buildProxyUrl(token, '/')">\n` after the first
`<head…>` opening tag. -/
def stage4BaseTag (token : String) (s : List Char) : List Char :=
  if existsBaseTag s then s
  else replaceHeadFirst
    (('\n' :: ("<base href=".data ++ '"' :: (buildProxyUrl token "/").data ++ ['"', '>'])) ++
      ['\n']) s

/-- Stage 5: inject the client script before the first `</body>`
(plain-string `replace`), or append it when no `</body>` exists. -/
def stage5InjectScript (script : String) (s : List Char) : List Char :=
  if containsL "</body>".data s then
    jsReplaceFirstL "</body>".data (script.data ++ "\n</body>".data) s
  else s ++ script.data

/-- The client script template (`generateClientScript`): the text
before `${token}`. -/
def csA : List Char := "\n  <script data-proxywarp-injected=\"true\">\n  (function() \x7b\n    // Configuration\n    const PROXY_TOKEN = \x27".data

/-- Template text between `${token}` and `${baseDomain}`. -/
def csB : List Char := "\x27;\n    const PROXY_BASE_DOMAIN = \x27".data

/-- Template text between `${baseDomain}` and `${targetDomain}`. -/
def csC : List Char := "\x27;\n    const TARGET_DOMAIN = \x27".data

/-- Template text after `${targetDomain}`, split into chunks of at
most 160 characters (`csD0 … csD64`), so that every later evaluation
stays within the kernel recursion the proofs need. -/
def csD0 : List Char := "\x27;\n    const PROXY_URL_PREFIX = \x27https://\x27 + PROXY_TOKEN + \x27.\x27 + PROXY_BASE_DOMAIN;\n    \n    // Debug mode - set to true for console logs\n    const DEBUG = fals".data
def csD1 : List Char := "e;\n    \n    /**\n     * Logs message if debug mode is enabled\n     */\n    function debugLog(...args) \x7b\n      if (DEBUG) \x7b\n        console.log(\x27[ProxyWarp]\x27, ...a".data
def csD2 : List Char := "rgs);\n      \x7d\n    \x7d\n    \n    /**\n     * Determines if a URL is external (not on the target domain)\n     */\n    function isExternalUrl(url) \x7b\n      try \x7b\n       ".data
def csD3 : List Char := " // Handle relative URLs\n        if (url.startsWith(\x27/\x27) || !url.includes(\x27://\x27)) \x7b\n          return false;\n        \x7d\n        \n        const urlObj = new URL(ur".data
def csD4 : List Char := "l);\n        return urlObj.hostname !== TARGET_DOMAIN && \n               urlObj.hostname !== \x27www.\x27 + TARGET_DOMAIN;\n      \x7d catch (e) \x7b\n        return false;\n  ".data
def csD5 : List Char := "    \x7d\n    \x7d\n    \n    /**\n     * Converts a URL to its proxied equivalent\n     */\n    function getProxiedUrl(url) \x7b\n      try \x7b\n        // Skip if already proxie".data
def csD6 : List Char := "d\n        if (url.includes(PROXY_BASE_DOMAIN)) \x7b\n          return url;\n        \x7d\n        \n        // Handle different URL formats\n        if (url.startsWith(\x27ht".data
def csD7 : List Char := "tp://\x27) || url.startsWith(\x27https://\x27)) \x7b\n          // Absolute URL - only proxy if it\x27s for the target domain\n          const urlObj = new URL(url);\n          i".data
def csD8 : List Char := "f (urlObj.hostname === TARGET_DOMAIN || \n              urlObj.hostname === \x27www.\x27 + TARGET_DOMAIN) \x7b\n            return PROXY_URL_PREFIX + urlObj.pathname + url".data
def csD9 : List Char := "Obj.search + urlObj.hash;\n          \x7d\n          return url; // External URL - don\x27t proxy\n        \x7d else if (url.startsWith(\x27/\x27)) \x7b\n          // Absolute path\n ".data
def csD10 : List Char := "         return PROXY_URL_PREFIX + url;\n        \x7d else if (url.startsWith(\x27#\x27)) \x7b\n          // Hash only - keep as is\n          return url;\n        \x7d else if (u".data
def csD11 : List Char := "rl.startsWith(\x27javascript:\x27)) \x7b\n          // JavaScript protocol - keep as is\n          return url;\n        \x7d else if (url.startsWith(\x27mailto:\x27) || url.startsWi".data
def csD12 : List Char := "th(\x27tel:\x27)) \x7b\n          // Other protocols - keep as is\n          return url;\n        \x7d else \x7b\n          // Relative path - keep as is (handled by base tag)\n   ".data
def csD13 : List Char := "       return url;\n        \x7d\n      \x7d catch (e) \x7b\n        debugLog(\x27Error converting URL:\x27, url, e);\n        return url; // Return original on error\n      \x7d\n    ".data
def csD14 : List Char := "\x7d\n    \n    /**\n     * Override history.pushState and history.replaceState\n     */\n    function overrideHistoryMethods() \x7b\n      const originalPushState = histor".data
def csD15 : List Char := "y.pushState;\n      const originalReplaceState = history.replaceState;\n      \n      history.pushState = function(state, title, url) \x7b\n        if (url) \x7b\n        ".data
def csD16 : List Char := "  const proxiedUrl = getProxiedUrl(url);\n          debugLog(\x27pushState intercepted:\x27, url, \x27->\x27, proxiedUrl);\n          return originalPushState.call(this, stat".data
def csD17 : List Char := "e, title, proxiedUrl);\n        \x7d\n        return originalPushState.call(this, state, title, url);\n      \x7d;\n      \n      history.replaceState = function(state, ti".data
def csD18 : List Char := "tle, url) \x7b\n        if (url) \x7b\n          const proxiedUrl = getProxiedUrl(url);\n          debugLog(\x27replaceState intercepted:\x27, url, \x27->\x27, proxiedUrl);\n        ".data
def csD19 : List Char := "  return originalReplaceState.call(this, state, title, proxiedUrl);\n        \x7d\n        return originalReplaceState.call(this, state, title, url);\n      \x7d;\n      ".data
def csD20 : List Char := "\n      debugLog(\x27History methods overridden\x27);\n    \x7d\n    \n    /**\n     * Override the Location object setters\n     */\n    function overrideLocationSetters() \x7b\n ".data
def csD21 : List Char := "     // Store original setters\n      const originalHref = Object.getOwnPropertyDescriptor(window.Location.prototype, \x27href\x27);\n      \n      // Define new setter ".data
def csD22 : List Char := "for href\n      Object.defineProperty(window.Location.prototype, \x27href\x27, \x7b\n        set: function(url) \x7b\n          const proxiedUrl = getProxiedUrl(url);\n        ".data
def csD23 : List Char := "  debugLog(\x27location.href intercepted:\x27, url, \x27->\x27, proxiedUrl);\n          return originalHref.set.call(this, proxiedUrl);\n        \x7d,\n        get: originalHref.".data
def csD24 : List Char := "get,\n        configurable: true\n      \x7d);\n      \n      // Also handle location.assign and location.replace\n      const originalAssign = window.Location.prototyp".data
def csD25 : List Char := "e.assign;\n      window.Location.prototype.assign = function(url) \x7b\n        const proxiedUrl = getProxiedUrl(url);\n        debugLog(\x27location.assign intercepted:".data
def csD26 : List Char := "\x27, url, \x27->\x27, proxiedUrl);\n        return originalAssign.call(this, proxiedUrl);\n      \x7d;\n      \n      const originalReplace = window.Location.prototype.replace".data
def csD27 : List Char := ";\n      window.Location.prototype.replace = function(url) \x7b\n        const proxiedUrl = getProxiedUrl(url);\n        debugLog(\x27location.replace intercepted:\x27, url".data
def csD28 : List Char := ", \x27->\x27, proxiedUrl);\n        return originalReplace.call(this, proxiedUrl);\n      \x7d;\n      \n      debugLog(\x27Location methods overridden\x27);\n    \x7d\n    \n    /**\n  ".data
def csD29 : List Char := "   * Intercept clicks on links\n     */\n    function setupLinkClickInterceptor() \x7b\n      document.addEventListener(\x27click\x27, function(e) \x7b\n        // Find if the ".data
def csD30 : List Char := "click was on or inside an <a> element\n        let element = e.target;\n        while (element && element.tagName !== \x27A\x27) \x7b\n          element = element.parentEle".data
def csD31 : List Char := "ment;\n        \x7d\n        \n        if (!element) return; // Not a link\n        \n        const href = element.getAttribute(\x27href\x27);\n        if (!href) return; // N".data
def csD32 : List Char := "o href attribute\n        \n        // Skip special links\n        if (href.startsWith(\x27javascript:\x27) || \n            href.startsWith(\x27mailto:\x27) || \n            hr".data
def csD33 : List Char := "ef.startsWith(\x27tel:\x27) || \n            href.startsWith(\x27#\x27)) \x7b\n          return;\n        \x7d\n        \n        // Skip already proxied links\n        if (href.includ".data
def csD34 : List Char := "es(PROXY_BASE_DOMAIN)) \x7b\n          return;\n        \x7d\n        \n        // Skip external links\n        if (isExternalUrl(href)) \x7b\n          return;\n        \x7d\n    ".data
def csD35 : List Char := "    \n        // Intercept the click\n        e.preventDefault();\n        \n        // Get the proxied URL and navigate\n        const proxiedUrl = getProxiedUrl(hr".data
def csD36 : List Char := "ef);\n        debugLog(\x27Link click intercepted:\x27, href, \x27->\x27, proxiedUrl);\n        window.location.href = proxiedUrl;\n      \x7d, true);\n      \n      debugLog(\x27Link".data
def csD37 : List Char := " click interceptor set up\x27);\n    \x7d\n    \n    /**\n     * Update links in newly added DOM elements\n     */\n    function setupMutationObserver() \x7b\n      // Create a".data
def csD38 : List Char := "n observer instance\n      const observer = new MutationObserver(function(mutations) \x7b\n        mutations.forEach(function(mutation) \x7b\n          // Process added ".data
def csD39 : List Char := "nodes\n          mutation.addedNodes.forEach(function(node) \x7b\n            if (node.nodeType !== Node.ELEMENT_NODE) return;\n            \n            // Process <a".data
def csD40 : List Char := "> elements\n            const links = node.tagName === \x27A\x27 ? [node] : node.querySelectorAll(\x27a\x27);\n            links.forEach(function(link) \x7b\n              const ".data
def csD41 : List Char := "href = link.getAttribute(\x27href\x27);\n              if (!href) return;\n              \n              // Skip special links and already proxied links\n              if".data
def csD42 : List Char := " (href.startsWith(\x27javascript:\x27) || \n                  href.startsWith(\x27mailto:\x27) || \n                  href.startsWith(\x27tel:\x27) || \n                  href.start".data
def csD43 : List Char := "sWith(\x27#\x27) ||\n                  href.includes(PROXY_BASE_DOMAIN) ||\n                  isExternalUrl(href)) \x7b\n                return;\n              \x7d\n           ".data
def csD44 : List Char := "   \n              const proxiedHref = getProxiedUrl(href);\n              if (proxiedHref !== href) \x7b\n                debugLog(\x27Updated dynamically added link:\x27,".data
def csD45 : List Char := " href, \x27->\x27, proxiedHref);\n                link.setAttribute(\x27href\x27, proxiedHref);\n              \x7d\n            \x7d);\n            \n            // Process <form> el".data
def csD46 : List Char := "ements\n            const forms = node.tagName === \x27FORM\x27 ? [node] : node.querySelectorAll(\x27form\x27);\n            forms.forEach(function(form) \x7b\n              cons".data
def csD47 : List Char := "t action = form.getAttribute(\x27action\x27);\n              if (!action) return;\n              \n              // Skip already proxied actions\n              if (action".data
def csD48 : List Char := ".includes(PROXY_BASE_DOMAIN) || isExternalUrl(action)) \x7b\n                return;\n              \x7d\n              \n              const proxiedAction = getProxiedUr".data
def csD49 : List Char := "l(action);\n              if (proxiedAction !== action) \x7b\n                debugLog(\x27Updated dynamically added form action:\x27, action, \x27->\x27, proxiedAction);\n      ".data
def csD50 : List Char := "          form.setAttribute(\x27action\x27, proxiedAction);\n              \x7d\n            \x7d);\n          \x7d);\n        \x7d);\n      \x7d);\n      \n      // Observe the whole docu".data
def csD51 : List Char := "ment with all child nodes\n      observer.observe(document, \x7b \n        childList: true, \n        subtree: true \n      \x7d);\n      \n      debugLog(\x27Mutation observe".data
def csD52 : List Char := "r set up\x27);\n    \x7d\n    \n    /**\n     * Intercept fetch and XMLHttpRequest\n     */\n    function setupFetchInterceptor() \x7b\n      // Override fetch\n      const orig".data
def csD53 : List Char := "inalFetch = window.fetch;\n      window.fetch = function(resource, init) \x7b\n        if (typeof resource === \x27string\x27) \x7b\n          const proxiedUrl = getProxiedUrl".data
def csD54 : List Char := "(resource);\n          if (proxiedUrl !== resource) \x7b\n            debugLog(\x27Fetch intercepted:\x27, resource, \x27->\x27, proxiedUrl);\n            resource = proxiedUrl;\n".data
def csD55 : List Char := "          \x7d\n        \x7d else if (resource instanceof Request) \x7b\n          const url = resource.url;\n          const proxiedUrl = getProxiedUrl(url);\n          if ".data
def csD56 : List Char := "(proxiedUrl !== url) \x7b\n            debugLog(\x27Fetch Request intercepted:\x27, url, \x27->\x27, proxiedUrl);\n            resource = new Request(proxiedUrl, resource);\n    ".data
def csD57 : List Char := "      \x7d\n        \x7d\n        \n        return originalFetch.call(this, resource, init);\n      \x7d;\n      \n      // Override XMLHttpRequest\n      const originalOpen = ".data
def csD58 : List Char := "XMLHttpRequest.prototype.open;\n      XMLHttpRequest.prototype.open = function(method, url, ...rest) \x7b\n        const proxiedUrl = getProxiedUrl(url);\n        if ".data
def csD59 : List Char := "(proxiedUrl !== url) \x7b\n          debugLog(\x27XMLHttpRequest intercepted:\x27, url, \x27->\x27, proxiedUrl);\n          url = proxiedUrl;\n        \x7d\n        \n        return o".data
def csD60 : List Char := "riginalOpen.call(this, method, url, ...rest);\n      \x7d;\n      \n      debugLog(\x27Fetch and XHR interceptors set up\x27);\n    \x7d\n    \n    // Initialize all interceptors".data
def csD61 : List Char := "\n    function init() \x7b\n      debugLog(\x27Initializing ProxyWarp client-side interceptors\x27);\n      overrideHistoryMethods();\n      overrideLocationSetters();\n     ".data
def csD62 : List Char := " setupLinkClickInterceptor();\n      setupMutationObserver();\n      setupFetchInterceptor();\n      debugLog(\x27All interceptors initialized\x27);\n    \x7d\n    \n    // Ru".data
def csD63 : List Char := "n initialization when the DOM is ready\n    if (document.readyState === \x27loading\x27) \x7b\n      document.addEventListener(\x27DOMContentLoaded\x27, init);\n    \x7d else \x7b\n    ".data
def csD64 : List Char := "  init();\n    \x7d\n  \x7d)();\n  </script>\n    ".data

/-- Right-nested suffixes of the chunked template tail:
`csDSfx k = csD k ++ csDSfx (k+1)`. -/
def csDSfx64 : List Char := csD64
def csDSfx63 : List Char := csD63 ++ csDSfx64
def csDSfx62 : List Char := csD62 ++ csDSfx63
def csDSfx61 : List Char := csD61 ++ csDSfx62
def csDSfx60 : List Char := csD60 ++ csDSfx61
def csDSfx59 : List Char := csD59 ++ csDSfx60
def csDSfx58 : List Char := csD58 ++ csDSfx59
def csDSfx57 : List Char := csD57 ++ csDSfx58
def csDSfx56 : List Char := csD56 ++ csDSfx57
def csDSfx55 : List Char := csD55 ++ csDSfx56
def csDSfx54 : List Char := csD54 ++ csDSfx55
def csDSfx53 : List Char := csD53 ++ csDSfx54
def csDSfx52 : List Char := csD52 ++ csDSfx53
def csDSfx51 : List Char := csD51 ++ csDSfx52
def csDSfx50 : List Char := csD50 ++ csDSfx51
def csDSfx49 : List Char := csD49 ++ csDSfx50
def csDSfx48 : List Char := csD48 ++ csDSfx49
def csDSfx47 : List Char := csD47 ++ csDSfx48
def csDSfx46 : List Char := csD46 ++ csDSfx47
def csDSfx45 : List Char := csD45 ++ csDSfx46
def csDSfx44 : List Char := csD44 ++ csDSfx45
def csDSfx43 : List Char := csD43 ++ csDSfx44
def csDSfx42 : List Char := csD42 ++ csDSfx43
def csDSfx41 : List Char := csD41 ++ csDSfx42
def csDSfx40 : List Char := csD40 ++ csDSfx41
def csDSfx39 : List Char := csD39 ++ csDSfx40
def csDSfx38 : List Char := csD38 ++ csDSfx39
def csDSfx37 : List Char := csD37 ++ csDSfx38
def csDSfx36 : List Char := csD36 ++ csDSfx37
def csDSfx35 : List Char := csD35 ++ csDSfx36
def csDSfx34 : List Char := csD34 ++ csDSfx35
def csDSfx33 : List Char := csD33 ++ csDSfx34
def csDSfx32 : List Char := csD32 ++ csDSfx33
def csDSfx31 : List Char := csD31 ++ csDSfx32
def csDSfx30 : List Char := csD30 ++ csDSfx31
def csDSfx29 : List Char := csD29 ++ csDSfx30
def csDSfx28 : List Char := csD28 ++ csDSfx29
def csDSfx27 : List Char := csD27 ++ csDSfx28
def csDSfx26 : List Char := csD26 ++ csDSfx27
def csDSfx25 : List Char := csD25 ++ csDSfx26
def csDSfx24 : List Char := csD24 ++ csDSfx25
def csDSfx23 : List Char := csD23 ++ csDSfx24
def csDSfx22 : List Char := csD22 ++ csDSfx23
def csDSfx21 : List Char := csD21 ++ csDSfx22
def csDSfx20 : List Char := csD20 ++ csDSfx21
def csDSfx19 : List Char := csD19 ++ csDSfx20
def csDSfx18 : List Char := csD18 ++ csDSfx19
def csDSfx17 : List Char := csD17 ++ csDSfx18
def csDSfx16 : List Char := csD16 ++ csDSfx17
def csDSfx15 : List Char := csD15 ++ csDSfx16
def csDSfx14 : List Char := csD14 ++ csDSfx15
def csDSfx13 : List Char := csD13 ++ csDSfx14
def csDSfx12 : List Char := csD12 ++ csDSfx13
def csDSfx11 : List Char := csD11 ++ csDSfx12
def csDSfx10 : List Char := csD10 ++ csDSfx11
def csDSfx9 : List Char := csD9 ++ csDSfx10
def csDSfx8 : List Char := csD8 ++ csDSfx9
def csDSfx7 : List Char := csD7 ++ csDSfx8
def csDSfx6 : List Char := csD6 ++ csDSfx7
def csDSfx5 : List Char := csD5 ++ csDSfx6
def csDSfx4 : List Char := csD4 ++ csDSfx5
def csDSfx3 : List Char := csD3 ++ csDSfx4
def csDSfx2 : List Char := csD2 ++ csDSfx3
def csDSfx1 : List Char := csD1 ++ csDSfx2
def csDSfx0 : List Char := csD0 ++ csDSfx1

/-- The full template tail after `${targetDomain}`. -/
def csD : List Char := csDSfx0

/-- Model of `generateClientScript(token, baseDomain, targetDomain)`
(`clientScript.js`): the interceptor script template with the three
configuration constants interpolated. -/
def generateClientScript (token baseDomain targetDomain : String) : String :=
  ⟨csA ++ (token.data ++ (csB ++ (baseDomain.data ++ (csC ++ (targetDomain.data ++ csD)))))⟩

/-- Model of `createResponseRewriter`'s end-of-stream body transformation: the
three regex rules in order, the base-tag injection, then the
client-script injection. -/
def rewriteHtmlBody (info : DomainInfo) (token : String) (body : String) : String :=
  ⟨stage5InjectScript (generateClientScript token BASE_DOMAIN info.domain)
    (stage4BaseTag token (applyRule3 info token (applyRule2 token (applyRule1 info token body.data))))⟩

/-- The concrete rewrite instance of the C4 analysis: token `abc123`
proxying `https://example.com`. -/
def c4Info : DomainInfo := ⟨"example.com", "https", 0⟩

/-- Suffix chain of the concrete injected script
`generateClientScript "abc123" BASE_DOMAIN "example.com"`. -/
def csTail5 : List Char := ("example.com" : String).data ++ csD
def csTail4 : List Char := csC ++ csTail5
def csTail3 : List Char := ("proxywarp.com" : String).data ++ csTail4
def csTail2 : List Char := csB ++ csTail3
def csTail1 : List Char := ("abc123" : String).data ++ csTail2
def csTail0 : List Char := csA ++ csTail1

/-- No rewrite rule of the pipeline (for the `c4Info`/`abc123`
instance) can start a match here, no base/head tag starts here, and no
`</body>` starts here. -/
def ScriptQuiet (s : List Char) : Prop :=
  tryRule1At "https" "example.com" "abc123" s = none ∧
  tryRule2At "abc123" s = none ∧
  tryRule3At "abc123" "example.com" s = none ∧
  tryBaseTagAt s = false ∧
  tryHeadAt s = none ∧
  ("</body>".data.isPrefixOf s) = false

instance (s : List Char) : Decidable (ScriptQuiet s) := by
  unfold ScriptQuiet
  infer_instance


/-! # Theorems -/

/-! ## Map lemmas -/

theorem JsObj.get_set (m : JsObj α) (k k' : String) (v : α) :
    (m.set k v) k' = if k' = k then some v else m k' := rfl

theorem listGet_listSet (l : List (String × α)) (k k' : String) (v : α) :
    listGet (listSet l k v) k' = if k' = k then some v else listGet l k' := by
  induction l with
  | nil =>
    simp only [listSet, listGet]
    by_cases h : k = k'
    · subst h
      simp
    · have h' : ¬ k' = k := fun he => h he.symm
      simp [h, h']
  | cons hd tl ih =>
    obtain ⟨k0, v0⟩ := hd
    simp only [listSet]
    by_cases hA : k0 = k
    · subst hA
      simp only [if_pos rfl, listGet]
      by_cases hB : k0 = k'
      · subst hB
        simp
      · have hB' : ¬ k' = k0 := fun he => hB he.symm
        simp [hB, hB']
    · simp only [if_neg hA, listGet, ih]
      by_cases hB : k0 = k'
      · subst hB
        have hC : ¬ k0 = k := hA
        simp [hC]
      · simp [hB]

/-! ## Claim C1 -/

/-- C1, counterexample.  The bijection invariant does **not** survive
every load-from-file path: one `getDomainInfoFromToken` call on the
fresh store, whose staleness-gated reload observes a token file
carrying two tokens (`"t1"`, `"t2"`) for the same domain `"d"`, leaves
a state where `"t1"` is present in `tokens` yet
`domainMapping[tokens["t1"].domain]` is `"t2"`, not `"t1"`. -/
theorem c1_counterexample : ¬ TokenStore.dupDomainState.Bijective := by
  intro h
  have h1 := h.1 "t1" ⟨"d", "https", 5⟩ (by decide)
  have h2 : TokenStore.dupDomainState.domainMapping "d" = some "t2" := by decide
  rw [h1] at h2
  exact absurd (Option.some.inj h2) (by decide)

theorem coherent_initial : TokenStore.initial.Coherent := by
  refine ⟨⟨?_, ?_⟩, rfl, ?_⟩ <;> intro a b h <;> simp_all [TokenStore.initial, JsObj.empty, listGet]

theorem coherent_getDomainInfoHit (s : TokenStore) (token : String) (info : DomainInfo)
    (now : Nat) (hc : s.Coherent) (htok : s.tokens token = some info) :
    (s.getDomainInfoHit token info now).2.Coherent := by
  obtain ⟨⟨hB1, hB2⟩, hB3, hB4⟩ := hc
  have htne : token ≠ "" := by
    intro he
    rw [he, hB3] at htok
    cases htok
  simp only [TokenStore.getDomainInfoHit, TokenStore.Coherent, TokenStore.Bijective]
  refine ⟨⟨?_, ?_⟩, ?_, ?_⟩
  · intro t i h
    rw [JsObj.get_set] at h
    by_cases ht : t = token
    · subst ht
      rw [if_pos rfl] at h
      cases h
      exact hB1 t info htok
    · rw [if_neg ht] at h
      exact hB1 t i h
  · intro d t h
    obtain ⟨i₀, hti, hdom⟩ := hB2 d t h
    rw [JsObj.get_set]
    by_cases ht : t = token
    · subst ht
      rw [htok] at hti
      cases hti
      exact ⟨{ info with timestamp := now }, by rw [if_pos rfl], hdom⟩
    · exact ⟨i₀, by rw [if_neg ht]; exact hti, hdom⟩
  · rw [JsObj.get_set, if_neg (fun he => htne he.symm)]
    exact hB3
  · intro t b h
    rw [listGet_listSet] at h
    rw [JsObj.get_set]
    by_cases ht : t = token
    · subst ht
      rw [if_pos rfl] at h
      cases h
      exact ⟨_, by rw [if_pos rfl], rfl⟩
    · rw [if_neg ht] at h
      obtain ⟨i₀, hti, hdom⟩ := hB4 t b h
      exact ⟨i₀, by rw [if_neg ht]; exact hti, hdom⟩

theorem coherent_allocateToken (s : TokenStore) (domain : String) (now : Nat)
    (draws : Nat → List Nat) (hc : s.Coherent)
    (hdm : s.domainMapping domain = none)
    (hfresh : s.tokens (generateToken s.tokens draws now) = none)
    (hne : generateToken s.tokens draws now ≠ "") :
    (s.allocateToken domain now draws).2.Coherent := by
  obtain ⟨⟨hB1, hB2⟩, hB3, hB4⟩ := hc
  set tok := generateToken s.tokens draws now with htok
  refine ⟨⟨?_, ?_⟩, ?_, ?_⟩
  · intro t i h
    simp only [TokenStore.allocateToken, JsObj.get_set] at h ⊢
    by_cases ht : t = tok
    · subst ht
      rw [if_pos rfl] at h
      cases h
      simp
    · rw [if_neg ht] at h
      have hd := hB1 t i h
      have hne' : i.domain ≠ domain := by
        intro he
        rw [he, hdm] at hd
        cases hd
      rw [if_neg hne']
      exact hd
  · intro d t h
    simp only [TokenStore.allocateToken, JsObj.get_set] at h ⊢
    by_cases hd : d = domain
    · subst hd
      rw [if_pos rfl] at h
      cases h
      exact ⟨_, by rw [if_pos rfl], rfl⟩
    · rw [if_neg hd] at h
      obtain ⟨i₀, hti, hdom⟩ := hB2 d t h
      have ht : t ≠ tok := by
        intro he
        rw [he, hfresh] at hti
        cases hti
      exact ⟨i₀, by rw [if_neg ht]; exact hti, hdom⟩
  · simp only [TokenStore.allocateToken, JsObj.get_set]
    rw [if_neg (fun he => hne he.symm)]
    exact hB3
  · intro t b h
    simp only [TokenStore.allocateToken, listGet_listSet, JsObj.get_set] at h ⊢
    by_cases ht : t = tok
    · subst ht
      rw [if_pos rfl] at h
      cases h
      exact ⟨_, by rw [if_pos rfl], rfl⟩
    · rw [if_neg ht] at h
      obtain ⟨i₀, hti, hdom⟩ := hB4 t b h
      exact ⟨i₀, by rw [if_neg ht]; exact hti, hdom⟩

theorem coherent_getTokenForDomain (s : TokenStore) (domain : String) (now : Nat)
    (draws : Nat → List Nat) (ev : LoadEvent) (hc : s.Coherent)
    (hnoload : ¬ now - s.lastLoad > 60000)
    (hfresh : s.tokens (generateToken s.tokens draws now) = none)
    (hne : generateToken s.tokens draws now ≠ "") :
    (s.getTokenForDomain domain now draws ev).2.Coherent := by
  have hmiss : ∀ d, s.domainMapping d = none →
      (s.getTokenForDomainMiss d now draws ev).2.Coherent := by
    intro d hd
    unfold TokenStore.getTokenForDomainMiss
    rw [if_neg hnoload]
    exact coherent_allocateToken s d now draws hc hd hfresh hne
  unfold TokenStore.getTokenForDomain
  split
  · next token hdm =>
    split
    · next htne =>
      split
      · next info htk => exact coherent_getDomainInfoHit s token info now hc htk
      · next htk =>
        obtain ⟨i₀, hti, -⟩ := hc.1.2 _ _ hdm
        rw [htk] at hti
        cases hti
    · next htne =>
      have he : token = "" := not_not.mp htne
      subst he
      obtain ⟨i₀, hti, -⟩ := hc.1.2 _ _ hdm
      rw [hc.2.1] at hti
      cases hti
  · next hdm => exact hmiss _ hdm

theorem coherent_getDomainInfoFromToken (s : TokenStore) (token : String) (now : Nat)
    (ev : LoadEvent) (hc : s.Coherent) (hnoload : ¬ now - s.lastLoad > 30000) :
    (s.getDomainInfoFromToken token now ev).2.Coherent := by
  unfold TokenStore.getDomainInfoFromToken
  by_cases h0 : token = ""
  · rw [if_pos h0]
    exact hc
  · rw [if_neg h0]
    cases htk : s.tokens (jsTrim token) with
    | some info => exact coherent_getDomainInfoHit s (jsTrim token) info now hc htk
    | none =>
      cases hbk : listGet s.backupTokens (jsTrim token) with
      | some b =>
        obtain ⟨i₀, hti, -⟩ := hc.2.2 _ _ hbk
        rw [htk] at hti
        cases hti
      | none =>
        simp only [if_neg hnoload, htk]
        exact hc

theorem coherent_of_noLoadReachable (s : TokenStore) (h : TokenStore.NoLoadReachable s) :
    s.Coherent := by
  induction h with
  | init => exact coherent_initial
  | stepTokenForDomain s domain now draws ev _ hnoload hfresh hne ih =>
    exact coherent_getTokenForDomain s domain now draws ev ih hnoload hfresh hne
  | stepDomainInfo s token now ev _ hnoload ih =>
    exact coherent_getDomainInfoFromToken s token now ev ih hnoload

/-- C1 (amended).  The bijection holds after any sequence of
`getTokenForDomain` and `getDomainInfoFromToken` calls from the fresh
store **provided** no call in the sequence reloads the token file and
every `_generateToken` run returns a fresh non-empty token (the normal
≤ 10-attempt path).  The unamended claim — which also admits the
load-from-file and backup-restore paths — is refuted by
`c1_counterexample`. -/
theorem c1_bijection_noload (s : TokenStore) (h : TokenStore.NoLoadReachable s) :
    s.Bijective :=
  (coherent_of_noLoadReachable s h).1

/-- Witness for C1: the store after one `getTokenForDomain` call that
allocates a token for `example.com` is reachable without loads, and
the theorem yields its bijection property. -/
theorem c1_bijection_noload_witness :
    (TokenStore.initial.getTokenForDomain "example.com" 1000
      (fun _ => [0, 1, 2, 3, 4, 5]) .missing).2.Bijective :=
  c1_bijection_noload _
    (TokenStore.NoLoadReachable.stepTokenForDomain _ _ _ _ _
      TokenStore.NoLoadReachable.init (by decide) (by decide) (by decide))

/-! ## Claim C2 -/

/-- C2, evaluation at the failing input.  With `this.tokens` already
holding `"aaaaaa"` and `"aaaaaa0000"`, eleven all-zero random draws,
and `Date.now() = 1679616` (`= 36⁴`, whose base-36 form ends in
`"0000"`), the escape path of `_generateToken` returns
`"aaaaaa0000"` — a token **already present** in the map: the 11th
attempt appends the time suffix and breaks out of the loop without
re-checking `token in this.tokens`. -/
theorem c2_escape_collision :
    generateToken c2Tokens (fun _ => [0, 0, 0, 0, 0, 0]) 1679616 = "aaaaaa0000" ∧
    (c2Tokens (generateToken c2Tokens (fun _ => [0, 0, 0, 0, 0, 0]) 1679616)).isSome = true := by
  constructor
  · decide
  · decide

/-! ## Claim C3 -/

theorem generateTokenGo_shape (tokens : JsObj DomainInfo) (draws : Nat → List Nat)
    (suffix : String) :
    ∀ k i, (∃ j, generateTokenGo tokens draws suffix k i = bytesToToken (draws j)) ∨
      (∃ j, generateTokenGo tokens draws suffix k i = bytesToToken (draws j) ++ suffix) := by
  intro k
  induction k with
  | zero => exact fun i => .inr ⟨i, rfl⟩
  | succ k ih =>
    intro i
    unfold generateTokenGo
    by_cases h : (tokens (bytesToToken (draws i))).isSome
    · simpa [h] using ih (i + 1)
    · simp only [h, if_false, Bool.false_eq_true]
      exact .inl ⟨i, by simp [h]⟩

theorem byteToTokenChar_mem (b : Nat) : isLowerAlnum (byteToTokenChar b) = true := by
  have h : b % 36 < 36 := Nat.mod_lt _ (by decide)
  have : ∀ d, d < 36 → isLowerAlnum (tokenAlphabet.data.getD d 'a') = true := by decide
  exact this _ h

theorem base36Digit_mem (d : Nat) (h : d < 36) : isLowerAlnum (base36Digit d) = true := by
  have : ∀ x, x < 36 → isLowerAlnum (base36Digit x) = true := by decide
  exact this _ h

theorem bytesToToken_all (bytes : List Nat) :
    (bytesToToken bytes).data.all isLowerAlnum = true := by
  simp only [bytesToToken, List.all_eq_true, List.mem_map]
  rintro c ⟨b, -, rfl⟩
  exact byteToTokenChar_mem b

theorem base36SliceLast4_big (n : Nat) (h : 36 * 36 * 36 ≤ n) :
    (base36SliceLast4 n).data.all isLowerAlnum = true ∧ (base36SliceLast4 n).data.length = 4 := by
  have h1 : ¬ n < 36 := by omega
  have h2 : ¬ n < 36 * 36 := by omega
  have h3 : ¬ n < 36 * 36 * 36 := by omega
  simp only [base36SliceLast4, h1, h2, h3, if_false]
  refine ⟨?_, rfl⟩
  simp only [List.all_cons, List.all_nil, Bool.and_true]
  simp [base36Digit_mem _ (Nat.mod_lt _ (by decide)), Bool.and_self]

/-- C3.  With 6-byte random draws (`crypto.randomBytes(TOKEN_LENGTH)`
always yields `TOKEN_LENGTH = 6` bytes) and a wall clock past
`36³` ms after the epoch (so `toString(36)` has at least four digits),
every token `_generateToken` can produce matches `^[a-z0-9]+$` and has
length `TOKEN_LENGTH` (normal path) or `TOKEN_LENGTH + 4` (the
collision-escape path, whose suffix is exactly 4 base-36 digits); in
particular the length lies in `[TOKEN_LENGTH, TOKEN_LENGTH + 4]`. -/
theorem c3_token_alphabet_length (tokens : JsObj DomainInfo) (draws : Nat → List Nat)
    (now : Nat) (hdraws : ∀ i, (draws i).length = TOKEN_LENGTH)
    (hnow : 36 * 36 * 36 ≤ now) :
    (generateToken tokens draws now).data.all isLowerAlnum = true ∧
    ((generateToken tokens draws now).length = TOKEN_LENGTH ∨
      (generateToken tokens draws now).length = TOKEN_LENGTH + 4) ∧
    TOKEN_LENGTH ≤ (generateToken tokens draws now).length ∧
    (generateToken tokens draws now).length ≤ TOKEN_LENGTH + 4 := by
  have hlen : ∀ j, (bytesToToken (draws j)).data.length = TOKEN_LENGTH := by
    intro j
    simp [bytesToToken, hdraws j]
  obtain ⟨hsall, hslen⟩ := base36SliceLast4_big now hnow
  rcases generateTokenGo_shape tokens draws (base36SliceLast4 now) 10 0 with ⟨j, hj⟩ | ⟨j, hj⟩
  · unfold generateToken
    rw [hj]
    refine ⟨bytesToToken_all _, ?_⟩
    have : (bytesToToken (draws j)).length = TOKEN_LENGTH := hlen j
    rw [this]
    exact ⟨.inl rfl, le_refl _, by omega⟩
  · unfold generateToken
    rw [hj]
    have hdata : (bytesToToken (draws j) ++ base36SliceLast4 now).data
        = (bytesToToken (draws j)).data ++ (base36SliceLast4 now).data := rfl
    constructor
    · rw [hdata, List.all_append, bytesToToken_all, hsall]
      rfl
    · have : (bytesToToken (draws j) ++ base36SliceLast4 now).length = TOKEN_LENGTH + 4 := by
        show ((bytesToToken (draws j)).data ++ (base36SliceLast4 now).data).length = TOKEN_LENGTH + 4
        rw [List.length_append, hlen j, hslen]
      rw [this]
      exact ⟨.inr rfl, by omega, le_refl _⟩

/-- Witness for C3 at a concrete input: empty map, all-zero draws,
`now = 36³`. -/
theorem c3_token_alphabet_length_witness :
    (generateToken JsObj.empty (fun _ => [0, 0, 0, 0, 0, 0]) 46656).data.all isLowerAlnum = true ∧
    ((generateToken JsObj.empty (fun _ => [0, 0, 0, 0, 0, 0]) 46656).length = TOKEN_LENGTH ∨
      (generateToken JsObj.empty (fun _ => [0, 0, 0, 0, 0, 0]) 46656).length = TOKEN_LENGTH + 4) ∧
    TOKEN_LENGTH ≤ (generateToken JsObj.empty (fun _ => [0, 0, 0, 0, 0, 0]) 46656).length ∧
    (generateToken JsObj.empty (fun _ => [0, 0, 0, 0, 0, 0]) 46656).length ≤ TOKEN_LENGTH + 4 :=
  c3_token_alphabet_length JsObj.empty (fun _ => [0, 0, 0, 0, 0, 0]) 46656
    (fun _ => rfl) (by decide)

/-! ## Claim C5 -/

/-- C5.  For every upstream response, the delivered headers drop
`content-security-policy`, `content-security-policy-report-only`,
`feature-policy` and `permissions-policy`, and carry
`x-frame-options: ALLOWALL` (the upstream value, whatever it was, is
first deleted and then overridden) plus the four permissive CORS
headers. -/
theorem c5_header_scrub (h : JsObj String) :
    scrubResponseHeaders h "x-frame-options" = some "ALLOWALL" ∧
    scrubResponseHeaders h "content-security-policy" = none ∧
    scrubResponseHeaders h "content-security-policy-report-only" = none ∧
    scrubResponseHeaders h "feature-policy" = none ∧
    scrubResponseHeaders h "permissions-policy" = none ∧
    scrubResponseHeaders h "access-control-allow-origin" = some "*" ∧
    scrubResponseHeaders h "access-control-allow-methods"
      = some "GET, POST, PUT, PATCH, DELETE, OPTIONS" ∧
    scrubResponseHeaders h "access-control-allow-headers"
      = some "Origin, X-Requested-With, Content-Type, Accept, Authorization" ∧
    scrubResponseHeaders h "access-control-allow-credentials" = some "true" := by
  refine ⟨rfl, ?_, ?_, ?_, ?_, rfl, rfl, rfl, rfl⟩ <;>
    simp [scrubResponseHeaders, JsObj.set, JsObj.del]

/-! ## Claim C7 -/

/-- C7, counterexample.  The gate is `includes('text/html')`, not
"begins with": a `content-type` of
`application/x-see-also; embedded=text/html` is handed to the HTML
rewriter although it does not begin with `text/html`. -/
theorem c7_counterexample :
    ¬ (handedToRewriter c7Headers = true ↔ specContentTypeBeginsWith c7Headers = true) := by
  decide

/-- C7 (amended).  The body is handed to the HTML rewriter iff the
upstream `content-type` value (defaulted to the empty string)
*contains* `text/html` as a substring — `onProxyRes` and the
rewriter's own `shouldProcessResponse` test exactly the same
condition, so the double gate collapses to it. -/
theorem c7_gate_contains (headers : JsObj String) :
    handedToRewriter headers = shouldProcessResponse headers ∧
    (handedToRewriter headers = true ↔
      jsIncludes ((headers "content-type").getD "") "text/html" = true) := by
  unfold handedToRewriter shouldProcessResponse
  by_cases h : jsIncludes ((headers "content-type").getD "") "text/html" = true
  · simp [h]
  · simp [h]

/-! ## Claim C9 -/

/-- C9, counterexample.  The `buildProxyUrl` of `src/lib/utils.js`
concatenates the path verbatim: for the non-empty `pathAndQuery`
`"x"` it yields `https://abc123.proxywarp.comx`, not the claimed form
with a leading slash inserted. -/
theorem c9_counterexample : buildProxyUrl "abc123" "x" ≠ specProxyUrl "abc123" "x" := by
  decide

/-- C9 (amended).  Only the second copy of `buildProxyUrl` (the one
bundled with the link rewriter's utilities) guarantees the leading
slash for every non-empty `pathAndQuery`; the copy in
`src/lib/utils.js` returns the claimed shape only when `pathAndQuery`
already starts with `/`. -/
theorem c9_leading_slash (token pathAndQuery : String) (hne : pathAndQuery ≠ "") :
    buildProxyUrlNormalizing token pathAndQuery = specProxyUrl token pathAndQuery ∧
    (jsStartsWith pathAndQuery "/" = true →
      buildProxyUrl token pathAndQuery = specProxyUrl token pathAndQuery) := by
  constructor
  · unfold buildProxyUrlNormalizing specProxyUrl
    by_cases hs : jsStartsWith pathAndQuery "/" = true
    · simp [hs]
    · simp [hne, hs, eq_false_of_ne_true hs]
  · intro hs
    unfold buildProxyUrl specProxyUrl
    rw [if_pos hs]

/-- Witness for C9 at `token = "abc123"`, `pathAndQuery = "x"`. -/
theorem c9_leading_slash_witness :
    buildProxyUrlNormalizing "abc123" "x" = specProxyUrl "abc123" "x" ∧
    (jsStartsWith "x" "/" = true → buildProxyUrl "abc123" "x" = specProxyUrl "abc123" "x") :=
  c9_leading_slash "abc123" "x" (by decide)

/-! ## Claim C8 -/

/-- C8, counterexample.  For
`Host = a.proxywarp.com.b.proxywarp.com` — which is non-empty, differs
from `BASE_DOMAIN` and ends with `"." + BASE_DOMAIN`, but contains
`"." + BASE_DOMAIN` as an interior substring — `replace` removes the
*first* occurrence, yielding `a.b.proxywarp.com`, not the suffix
removal `a.proxywarp.com.b`. -/
theorem c8_counterexample :
    jsEndsWith "a.proxywarp.com.b.proxywarp.com" ("." ++ BASE_DOMAIN) = true ∧
    "a.proxywarp.com.b.proxywarp.com" ≠ "" ∧
    "a.proxywarp.com.b.proxywarp.com" ≠ BASE_DOMAIN ∧
    extractToken "a.proxywarp.com.b.proxywarp.com"
      ≠ specSuffixToken "a.proxywarp.com.b.proxywarp.com" := by
  refine ⟨by decide, by decide, by decide, by decide⟩

theorem jsReplaceFirstL_strip (pat t : List Char) (hpat : pat ≠ [])
    (h : ∀ i < t.length, pat.isPrefixOf ((t ++ pat).drop i) = false) :
    jsReplaceFirstL pat [] (t ++ pat) = t := by
  induction t with
  | nil =>
    obtain ⟨c, rest, rfl⟩ : ∃ c rest, pat = c :: rest := by
      cases pat with
      | nil => exact absurd rfl hpat
      | cons c rest => exact ⟨c, rest, rfl⟩
    simp only [List.nil_append, jsReplaceFirstL]
    rw [if_pos (by rw [List.isPrefixOf_iff_prefix])]
    simp
  | cons c t' ih =>
    have h0 : pat.isPrefixOf (c :: (t' ++ pat)) = false := by
      have h00 := h 0 (by simp)
      simpa using h00
    calc jsReplaceFirstL pat [] ((c :: t') ++ pat)
        = jsReplaceFirstL pat [] (c :: (t' ++ pat)) := by rw [List.cons_append]
      _ = c :: jsReplaceFirstL pat [] (t' ++ pat) := by
          simp only [jsReplaceFirstL, h0]
          simp
      _ = c :: t' := by
          rw [ih (fun i hi => by
            have := h (i + 1) (by simp only [List.length_cons]; omega)
            simpa using this)]

/-- C8 (amended).  The token is the Host value with the *first*
occurrence of `"." + BASE_DOMAIN` removed; this coincides with the
specified suffix removal exactly when `"." + BASE_DOMAIN` occurs
nowhere before the final suffix (the typical single-label case).  On
hosts with an interior occurrence the two differ
(`c8_counterexample`). -/
theorem c8_token_first_occurrence (host : String)
    (hsuf : jsEndsWith host ("." ++ BASE_DOMAIN) = true)
    (hint : ∀ i < host.data.length - ("." ++ BASE_DOMAIN).data.length,
      ("." ++ BASE_DOMAIN).data.isPrefixOf (host.data.drop i) = false) :
    extractToken host = specSuffixToken host := by
  have hpat : ("." ++ BASE_DOMAIN).data ≠ [] := by decide
  unfold jsEndsWith at hsuf
  rw [List.isSuffixOf_iff_suffix] at hsuf
  obtain ⟨t, ht⟩ := hsuf
  unfold extractToken jsReplaceFirst specSuffixToken
  rw [← ht]
  have hlen : (t ++ ("." ++ BASE_DOMAIN).data).length - ("." ++ BASE_DOMAIN).data.length
      = t.length := by
    rw [List.length_append]
    omega
  rw [hlen, List.take_left]
  have hint' : ∀ i < t.length,
      ("." ++ BASE_DOMAIN).data.isPrefixOf ((t ++ ("." ++ BASE_DOMAIN).data).drop i) = false := by
    intro i hi
    have := hint i (by rw [← ht] at *; rw [hlen]; exact hi)
    rw [← ht] at this
    exact this
  exact congrArg String.mk (jsReplaceFirstL_strip _ t hpat hint')

/-- Witness for C8 at `Host = tok.proxywarp.com` (no interior
occurrence): the token is `tok`. -/
theorem c8_token_first_occurrence_witness :
    extractToken "tok.proxywarp.com" = specSuffixToken "tok.proxywarp.com" :=
  c8_token_first_occurrence "tok.proxywarp.com" (by decide) (by decide)

/-! ## Claim C10 -/

theorem containsL_of_isPrefixOf (pat s : List Char) (h : pat.isPrefixOf s = true) :
    containsL pat s = true := by
  cases s with
  | nil =>
    cases pat with
    | nil => rfl
    | cons c cs => simp at h
  | cons c rest => simp [containsL, h]

theorem containsL_append_left (pat a s : List Char) (h : containsL pat s = true) :
    containsL pat (a ++ s) = true := by
  induction a with
  | nil => simpa using h
  | cons c a' ih => simp [containsL, ih]

theorem jsIncludes_prefix_append (token baseDomain x : String) :
    jsIncludes (PROXY_URL_PREFIX token baseDomain ++ x) baseDomain = true := by
  unfold jsIncludes PROXY_URL_PREFIX
  show containsL baseDomain.data
    ((("https://" ++ token ++ "." ++ baseDomain) ++ x).data) = true
  have hdata : (("https://" ++ token ++ "." ++ baseDomain) ++ x).data
      = ("https://" ++ token ++ ".").data ++ (baseDomain.data ++ x.data) := by
    show (("https://" ++ token ++ "." ++ baseDomain).data ++ x.data) = _
    have : ("https://" ++ token ++ "." ++ baseDomain).data
        = ("https://" ++ token ++ ".").data ++ baseDomain.data := rfl
    rw [this, List.append_assoc]
  rw [hdata]
  exact containsL_append_left _ _ _
    (containsL_of_isPrefixOf _ _ (List.isPrefixOf_iff_prefix.mpr (List.prefix_append _ _)))

theorem getProxiedUrl_shape (token baseDomain targetDomain url : String) :
    getProxiedUrl token baseDomain targetDomain url = url ∨
    ∃ x, getProxiedUrl token baseDomain targetDomain url
      = PROXY_URL_PREFIX token baseDomain ++ x := by
  unfold getProxiedUrl
  by_cases h1 : jsIncludes url baseDomain = true
  · rw [if_pos h1]
    exact .inl rfl
  · rw [if_neg h1]
    by_cases h2 : (jsStartsWith url "http://" || jsStartsWith url "https://") = true
    · rw [if_pos h2]
      cases hp : parseHttpUrl url with
      | none => exact .inl rfl
      | some u =>
        show (if u.hostname = targetDomain ∨ u.hostname = "www." ++ targetDomain then
            PROXY_URL_PREFIX token baseDomain ++ u.pathname ++ u.search ++ u.hash
          else url) = url ∨
          ∃ x, (if u.hostname = targetDomain ∨ u.hostname = "www." ++ targetDomain then
            PROXY_URL_PREFIX token baseDomain ++ u.pathname ++ u.search ++ u.hash
          else url) = PROXY_URL_PREFIX token baseDomain ++ x
        by_cases h3 : u.hostname = targetDomain ∨ u.hostname = "www." ++ targetDomain
        · rw [if_pos h3]
          exact .inr ⟨u.pathname ++ u.search ++ u.hash, by
            simp [String.append_assoc]⟩
        · rw [if_neg h3]
          exact .inl rfl
    · rw [if_neg h2]
      by_cases h4 : jsStartsWith url "/" = true
      · rw [if_pos h4]
        exact .inr ⟨url, rfl⟩
      · rw [if_neg h4]
        by_cases h5 : jsStartsWith url "#" = true
        · rw [if_pos h5]; exact .inl rfl
        · rw [if_neg h5]
          by_cases h6 : jsStartsWith url "javascript:" = true
          · rw [if_pos h6]; exact .inl rfl
          · rw [if_neg h6]
            by_cases h7 : (jsStartsWith url "mailto:" || jsStartsWith url "tel:") = true
            · rw [if_pos h7]; exact .inl rfl
            · rw [if_neg h7]; exact .inl rfl

/-- C10.  The client-side URL mapper is idempotent: every URL it
rewrites gains the `https://<token>.<baseDomain>` prefix, so it
contains the proxy base domain and is returned unchanged by the
script's first check on a second application; URLs it leaves alone map
to themselves again. -/
theorem c10_getProxiedUrl_idempotent (token baseDomain targetDomain url : String) :
    getProxiedUrl token baseDomain targetDomain
        (getProxiedUrl token baseDomain targetDomain url)
      = getProxiedUrl token baseDomain targetDomain url := by
  rcases getProxiedUrl_shape token baseDomain targetDomain url with h | ⟨x, h⟩
  · rw [h]
    exact h
  · rw [h]
    unfold getProxiedUrl
    rw [if_pos (jsIncludes_prefix_append token baseDomain x)]

/-! ## Claim C6 -/

/-- C6.  On a subdomain request, the handler answers 400 if and only
if every resolution step fails: the resolver cache misses, the token
is not in the directory (including its backup and staleness-gated
reload), the `Referer` recovery finds nothing, and the lookup retried
after `forceReload` still misses.  Whenever any step succeeds the
request is dispatched to the reverse proxy, and the outcome on the
subdomain path is always a dispatch or the 400 page. -/
theorem c6_unknown_token_400 (s : TokenStore) (host : String) (cached : Option DomainInfo)
    (referer : Option String) (now : Nat) (ev1 ev2 ev3 ev4 : LoadEvent)
    (hne : host ≠ "") (hnb : host ≠ BASE_DOMAIN)
    (hsub : jsEndsWith host ("." ++ BASE_DOMAIN) = true) :
    ((setupProxyHandler s (some host) cached referer now ev1 ev2 ev3 ev4).1 = .badRequest
      ↔ (cached = none ∧
        (s.getDomainInfoFromToken (extractToken host) now ev1).1 = none ∧
        (refererRecovery (s.getDomainInfoFromToken (extractToken host) now ev1).2
          referer now ev2).1 = none ∧
        (((refererRecovery (s.getDomainInfoFromToken (extractToken host) now ev1).2
            referer now ev2).2.forceReload now ev3).getDomainInfoFromToken
          (extractToken host) now ev4).1 = none)) ∧
    ((setupProxyHandler s (some host) cached referer now ev1 ev2 ev3 ev4).1 = .badRequest ∨
      ∃ t, (setupProxyHandler s (some host) cached referer now ev1 ev2 ev3 ev4).1
        = .dispatch t) := by
  have hcond : ¬ (host = "" ∨ host = BASE_DOMAIN ∨
      jsEndsWith host ("." ++ BASE_DOMAIN) = false) := by
    push_neg
    exact ⟨hne, hnb, by simp [hsub]⟩
  simp only [setupProxyHandler]
  rw [if_neg hcond]
  cases cached with
  | some t => simp
  | none =>
    cases h1 : s.getDomainInfoFromToken (extractToken host) now ev1 with
    | mk r1 s1 =>
      cases r1 with
      | some t => simp [h1]
      | none =>
        cases h2 : refererRecovery s1 referer now ev2 with
        | mk r2 s2 =>
          cases r2 with
          | some t => simp [h1, h2]
          | none =>
            cases h3 : (s2.forceReload now ev3).getDomainInfoFromToken
                (extractToken host) now ev4 with
            | mk r3 s3 =>
              cases r3 with
              | some t => simp [h1, h2, h3]
              | none => simp [h1, h2, h3]

/-- Witness for C6: a fresh store, no cache entry, no referer, and the
unknown token `zz`; every step fails and the outcome is the 400
page. -/
theorem c6_unknown_token_400_witness :
    (((setupProxyHandler TokenStore.initial (some "zz.proxywarp.com") none none 1
        .missing .missing .missing .missing).1 = .badRequest
      ↔ ((none : Option DomainInfo) = none ∧
        (TokenStore.initial.getDomainInfoFromToken (extractToken "zz.proxywarp.com")
          1 .missing).1 = none ∧
        (refererRecovery (TokenStore.initial.getDomainInfoFromToken
            (extractToken "zz.proxywarp.com") 1 .missing).2 none 1 .missing).1 = none ∧
        (((refererRecovery (TokenStore.initial.getDomainInfoFromToken
              (extractToken "zz.proxywarp.com") 1 .missing).2 none 1 .missing).2.forceReload
            1 .missing).getDomainInfoFromToken (extractToken "zz.proxywarp.com")
          1 .missing).1 = none)) ∧
      ((setupProxyHandler TokenStore.initial (some "zz.proxywarp.com") none none 1
          .missing .missing .missing .missing).1 = .badRequest ∨
        ∃ t, (setupProxyHandler TokenStore.initial (some "zz.proxywarp.com") none none 1
          .missing .missing .missing .missing).1 = .dispatch t)) :=
  c6_unknown_token_400 TokenStore.initial "zz.proxywarp.com" none none 1
    .missing .missing .missing .missing (by decide) (by decide) (by decide)

/-! ## Chunk-gluing lemmas for pointwise suffix properties -/

theorem dropAll_single (P : List Char → Prop) (c : List Char) (L : Nat) (hL : c.length = L)
    (h1 : ∀ i < L, P (c.drop i)) (hnil : P []) : ∀ n, P (c.drop n) := by
  intro n
  rcases lt_or_ge n L with h | h
  · exact h1 n h
  · rw [List.drop_eq_nil_of_le (by omega)]
    exact hnil

theorem dropAll_append (P : List Char → Prop) (c r : List Char) (L : Nat) (hL : c.length = L)
    (h1 : ∀ i < L, P (c.drop i ++ r)) (h2 : ∀ n, P (r.drop n)) :
    ∀ n, P ((c ++ r).drop n) := by
  intro n
  rw [List.drop_append_eq_append_drop]
  rcases lt_or_ge n L with h | h
  · have hn0 : n - c.length = 0 := by omega
    rw [hn0, List.drop_zero]
    exact h1 n h
  · have : c.drop n = [] := List.drop_eq_nil_of_le (by omega)
    rw [this, List.nil_append]
    exact h2 (n - c.length)

/-! ## Claim C4: the injected script is inert under every rule -/

theorem scriptQuiet_dSfx64 : ∀ n, ScriptQuiet (csDSfx64.drop n) :=
  dropAll_single ScriptQuiet csDSfx64 40 (by decide) (by decide) (by decide)

theorem scriptQuiet_dSfx63 : ∀ n, ScriptQuiet (csDSfx63.drop n) :=
  dropAll_append ScriptQuiet csD63 csDSfx64 160 (by decide) (by decide) scriptQuiet_dSfx64

theorem scriptQuiet_dSfx62 : ∀ n, ScriptQuiet (csDSfx62.drop n) :=
  dropAll_append ScriptQuiet csD62 csDSfx63 160 (by decide) (by decide) scriptQuiet_dSfx63

theorem scriptQuiet_dSfx61 : ∀ n, ScriptQuiet (csDSfx61.drop n) :=
  dropAll_append ScriptQuiet csD61 csDSfx62 160 (by decide) (by decide) scriptQuiet_dSfx62

theorem scriptQuiet_dSfx60 : ∀ n, ScriptQuiet (csDSfx60.drop n) :=
  dropAll_append ScriptQuiet csD60 csDSfx61 160 (by decide) (by decide) scriptQuiet_dSfx61

theorem scriptQuiet_dSfx59 : ∀ n, ScriptQuiet (csDSfx59.drop n) :=
  dropAll_append ScriptQuiet csD59 csDSfx60 160 (by decide) (by decide) scriptQuiet_dSfx60

theorem scriptQuiet_dSfx58 : ∀ n, ScriptQuiet (csDSfx58.drop n) :=
  dropAll_append ScriptQuiet csD58 csDSfx59 160 (by decide) (by decide) scriptQuiet_dSfx59

theorem scriptQuiet_dSfx57 : ∀ n, ScriptQuiet (csDSfx57.drop n) :=
  dropAll_append ScriptQuiet csD57 csDSfx58 160 (by decide) (by decide) scriptQuiet_dSfx58

theorem scriptQuiet_dSfx56 : ∀ n, ScriptQuiet (csDSfx56.drop n) :=
  dropAll_append ScriptQuiet csD56 csDSfx57 160 (by decide) (by decide) scriptQuiet_dSfx57

theorem scriptQuiet_dSfx55 : ∀ n, ScriptQuiet (csDSfx55.drop n) :=
  dropAll_append ScriptQuiet csD55 csDSfx56 160 (by decide) (by decide) scriptQuiet_dSfx56

theorem scriptQuiet_dSfx54 : ∀ n, ScriptQuiet (csDSfx54.drop n) :=
  dropAll_append ScriptQuiet csD54 csDSfx55 160 (by decide) (by decide) scriptQuiet_dSfx55

theorem scriptQuiet_dSfx53 : ∀ n, ScriptQuiet (csDSfx53.drop n) :=
  dropAll_append ScriptQuiet csD53 csDSfx54 160 (by decide) (by decide) scriptQuiet_dSfx54

theorem scriptQuiet_dSfx52 : ∀ n, ScriptQuiet (csDSfx52.drop n) :=
  dropAll_append ScriptQuiet csD52 csDSfx53 160 (by decide) (by decide) scriptQuiet_dSfx53

theorem scriptQuiet_dSfx51 : ∀ n, ScriptQuiet (csDSfx51.drop n) :=
  dropAll_append ScriptQuiet csD51 csDSfx52 160 (by decide) (by decide) scriptQuiet_dSfx52

theorem scriptQuiet_dSfx50 : ∀ n, ScriptQuiet (csDSfx50.drop n) :=
  dropAll_append ScriptQuiet csD50 csDSfx51 160 (by decide) (by decide) scriptQuiet_dSfx51

theorem scriptQuiet_dSfx49 : ∀ n, ScriptQuiet (csDSfx49.drop n) :=
  dropAll_append ScriptQuiet csD49 csDSfx50 160 (by decide) (by decide) scriptQuiet_dSfx50

theorem scriptQuiet_dSfx48 : ∀ n, ScriptQuiet (csDSfx48.drop n) :=
  dropAll_append ScriptQuiet csD48 csDSfx49 160 (by decide) (by decide) scriptQuiet_dSfx49

theorem scriptQuiet_dSfx47 : ∀ n, ScriptQuiet (csDSfx47.drop n) :=
  dropAll_append ScriptQuiet csD47 csDSfx48 160 (by decide) (by decide) scriptQuiet_dSfx48

theorem scriptQuiet_dSfx46 : ∀ n, ScriptQuiet (csDSfx46.drop n) :=
  dropAll_append ScriptQuiet csD46 csDSfx47 160 (by decide) (by decide) scriptQuiet_dSfx47

theorem scriptQuiet_dSfx45 : ∀ n, ScriptQuiet (csDSfx45.drop n) :=
  dropAll_append ScriptQuiet csD45 csDSfx46 160 (by decide) (by decide) scriptQuiet_dSfx46

theorem scriptQuiet_dSfx44 : ∀ n, ScriptQuiet (csDSfx44.drop n) :=
  dropAll_append ScriptQuiet csD44 csDSfx45 160 (by decide) (by decide) scriptQuiet_dSfx45

theorem scriptQuiet_dSfx43 : ∀ n, ScriptQuiet (csDSfx43.drop n) :=
  dropAll_append ScriptQuiet csD43 csDSfx44 160 (by decide) (by decide) scriptQuiet_dSfx44

theorem scriptQuiet_dSfx42 : ∀ n, ScriptQuiet (csDSfx42.drop n) :=
  dropAll_append ScriptQuiet csD42 csDSfx43 160 (by decide) (by decide) scriptQuiet_dSfx43

theorem scriptQuiet_dSfx41 : ∀ n, ScriptQuiet (csDSfx41.drop n) :=
  dropAll_append ScriptQuiet csD41 csDSfx42 160 (by decide) (by decide) scriptQuiet_dSfx42

theorem scriptQuiet_dSfx40 : ∀ n, ScriptQuiet (csDSfx40.drop n) :=
  dropAll_append ScriptQuiet csD40 csDSfx41 160 (by decide) (by decide) scriptQuiet_dSfx41

theorem scriptQuiet_dSfx39 : ∀ n, ScriptQuiet (csDSfx39.drop n) :=
  dropAll_append ScriptQuiet csD39 csDSfx40 160 (by decide) (by decide) scriptQuiet_dSfx40

theorem scriptQuiet_dSfx38 : ∀ n, ScriptQuiet (csDSfx38.drop n) :=
  dropAll_append ScriptQuiet csD38 csDSfx39 160 (by decide) (by decide) scriptQuiet_dSfx39

theorem scriptQuiet_dSfx37 : ∀ n, ScriptQuiet (csDSfx37.drop n) :=
  dropAll_append ScriptQuiet csD37 csDSfx38 160 (by decide) (by decide) scriptQuiet_dSfx38

theorem scriptQuiet_dSfx36 : ∀ n, ScriptQuiet (csDSfx36.drop n) :=
  dropAll_append ScriptQuiet csD36 csDSfx37 160 (by decide) (by decide) scriptQuiet_dSfx37

theorem scriptQuiet_dSfx35 : ∀ n, ScriptQuiet (csDSfx35.drop n) :=
  dropAll_append ScriptQuiet csD35 csDSfx36 160 (by decide) (by decide) scriptQuiet_dSfx36

theorem scriptQuiet_dSfx34 : ∀ n, ScriptQuiet (csDSfx34.drop n) :=
  dropAll_append ScriptQuiet csD34 csDSfx35 160 (by decide) (by decide) scriptQuiet_dSfx35

theorem scriptQuiet_dSfx33 : ∀ n, ScriptQuiet (csDSfx33.drop n) :=
  dropAll_append ScriptQuiet csD33 csDSfx34 160 (by decide) (by decide) scriptQuiet_dSfx34

theorem scriptQuiet_dSfx32 : ∀ n, ScriptQuiet (csDSfx32.drop n) :=
  dropAll_append ScriptQuiet csD32 csDSfx33 160 (by decide) (by decide) scriptQuiet_dSfx33

theorem scriptQuiet_dSfx31 : ∀ n, ScriptQuiet (csDSfx31.drop n) :=
  dropAll_append ScriptQuiet csD31 csDSfx32 160 (by decide) (by decide) scriptQuiet_dSfx32

theorem scriptQuiet_dSfx30 : ∀ n, ScriptQuiet (csDSfx30.drop n) :=
  dropAll_append ScriptQuiet csD30 csDSfx31 160 (by decide) (by decide) scriptQuiet_dSfx31

theorem scriptQuiet_dSfx29 : ∀ n, ScriptQuiet (csDSfx29.drop n) :=
  dropAll_append ScriptQuiet csD29 csDSfx30 160 (by decide) (by decide) scriptQuiet_dSfx30

theorem scriptQuiet_dSfx28 : ∀ n, ScriptQuiet (csDSfx28.drop n) :=
  dropAll_append ScriptQuiet csD28 csDSfx29 160 (by decide) (by decide) scriptQuiet_dSfx29

theorem scriptQuiet_dSfx27 : ∀ n, ScriptQuiet (csDSfx27.drop n) :=
  dropAll_append ScriptQuiet csD27 csDSfx28 160 (by decide) (by decide) scriptQuiet_dSfx28

theorem scriptQuiet_dSfx26 : ∀ n, ScriptQuiet (csDSfx26.drop n) :=
  dropAll_append ScriptQuiet csD26 csDSfx27 160 (by decide) (by decide) scriptQuiet_dSfx27

theorem scriptQuiet_dSfx25 : ∀ n, ScriptQuiet (csDSfx25.drop n) :=
  dropAll_append ScriptQuiet csD25 csDSfx26 160 (by decide) (by decide) scriptQuiet_dSfx26

theorem scriptQuiet_dSfx24 : ∀ n, ScriptQuiet (csDSfx24.drop n) :=
  dropAll_append ScriptQuiet csD24 csDSfx25 160 (by decide) (by decide) scriptQuiet_dSfx25

theorem scriptQuiet_dSfx23 : ∀ n, ScriptQuiet (csDSfx23.drop n) :=
  dropAll_append ScriptQuiet csD23 csDSfx24 160 (by decide) (by decide) scriptQuiet_dSfx24

theorem scriptQuiet_dSfx22 : ∀ n, ScriptQuiet (csDSfx22.drop n) :=
  dropAll_append ScriptQuiet csD22 csDSfx23 160 (by decide) (by decide) scriptQuiet_dSfx23

theorem scriptQuiet_dSfx21 : ∀ n, ScriptQuiet (csDSfx21.drop n) :=
  dropAll_append ScriptQuiet csD21 csDSfx22 160 (by decide) (by decide) scriptQuiet_dSfx22

theorem scriptQuiet_dSfx20 : ∀ n, ScriptQuiet (csDSfx20.drop n) :=
  dropAll_append ScriptQuiet csD20 csDSfx21 160 (by decide) (by decide) scriptQuiet_dSfx21

theorem scriptQuiet_dSfx19 : ∀ n, ScriptQuiet (csDSfx19.drop n) :=
  dropAll_append ScriptQuiet csD19 csDSfx20 160 (by decide) (by decide) scriptQuiet_dSfx20

theorem scriptQuiet_dSfx18 : ∀ n, ScriptQuiet (csDSfx18.drop n) :=
  dropAll_append ScriptQuiet csD18 csDSfx19 160 (by decide) (by decide) scriptQuiet_dSfx19

theorem scriptQuiet_dSfx17 : ∀ n, ScriptQuiet (csDSfx17.drop n) :=
  dropAll_append ScriptQuiet csD17 csDSfx18 160 (by decide) (by decide) scriptQuiet_dSfx18

theorem scriptQuiet_dSfx16 : ∀ n, ScriptQuiet (csDSfx16.drop n) :=
  dropAll_append ScriptQuiet csD16 csDSfx17 160 (by decide) (by decide) scriptQuiet_dSfx17

theorem scriptQuiet_dSfx15 : ∀ n, ScriptQuiet (csDSfx15.drop n) :=
  dropAll_append ScriptQuiet csD15 csDSfx16 160 (by decide) (by decide) scriptQuiet_dSfx16

theorem scriptQuiet_dSfx14 : ∀ n, ScriptQuiet (csDSfx14.drop n) :=
  dropAll_append ScriptQuiet csD14 csDSfx15 160 (by decide) (by decide) scriptQuiet_dSfx15

theorem scriptQuiet_dSfx13 : ∀ n, ScriptQuiet (csDSfx13.drop n) :=
  dropAll_append ScriptQuiet csD13 csDSfx14 160 (by decide) (by decide) scriptQuiet_dSfx14

theorem scriptQuiet_dSfx12 : ∀ n, ScriptQuiet (csDSfx12.drop n) :=
  dropAll_append ScriptQuiet csD12 csDSfx13 160 (by decide) (by decide) scriptQuiet_dSfx13

theorem scriptQuiet_dSfx11 : ∀ n, ScriptQuiet (csDSfx11.drop n) :=
  dropAll_append ScriptQuiet csD11 csDSfx12 160 (by decide) (by decide) scriptQuiet_dSfx12

theorem scriptQuiet_dSfx10 : ∀ n, ScriptQuiet (csDSfx10.drop n) :=
  dropAll_append ScriptQuiet csD10 csDSfx11 160 (by decide) (by decide) scriptQuiet_dSfx11

theorem scriptQuiet_dSfx9 : ∀ n, ScriptQuiet (csDSfx9.drop n) :=
  dropAll_append ScriptQuiet csD9 csDSfx10 160 (by decide) (by decide) scriptQuiet_dSfx10

theorem scriptQuiet_dSfx8 : ∀ n, ScriptQuiet (csDSfx8.drop n) :=
  dropAll_append ScriptQuiet csD8 csDSfx9 160 (by decide) (by decide) scriptQuiet_dSfx9

theorem scriptQuiet_dSfx7 : ∀ n, ScriptQuiet (csDSfx7.drop n) :=
  dropAll_append ScriptQuiet csD7 csDSfx8 160 (by decide) (by decide) scriptQuiet_dSfx8

theorem scriptQuiet_dSfx6 : ∀ n, ScriptQuiet (csDSfx6.drop n) :=
  dropAll_append ScriptQuiet csD6 csDSfx7 160 (by decide) (by decide) scriptQuiet_dSfx7

theorem scriptQuiet_dSfx5 : ∀ n, ScriptQuiet (csDSfx5.drop n) :=
  dropAll_append ScriptQuiet csD5 csDSfx6 160 (by decide) (by decide) scriptQuiet_dSfx6

theorem scriptQuiet_dSfx4 : ∀ n, ScriptQuiet (csDSfx4.drop n) :=
  dropAll_append ScriptQuiet csD4 csDSfx5 160 (by decide) (by decide) scriptQuiet_dSfx5

theorem scriptQuiet_dSfx3 : ∀ n, ScriptQuiet (csDSfx3.drop n) :=
  dropAll_append ScriptQuiet csD3 csDSfx4 160 (by decide) (by decide) scriptQuiet_dSfx4

theorem scriptQuiet_dSfx2 : ∀ n, ScriptQuiet (csDSfx2.drop n) :=
  dropAll_append ScriptQuiet csD2 csDSfx3 160 (by decide) (by decide) scriptQuiet_dSfx3

theorem scriptQuiet_dSfx1 : ∀ n, ScriptQuiet (csDSfx1.drop n) :=
  dropAll_append ScriptQuiet csD1 csDSfx2 160 (by decide) (by decide) scriptQuiet_dSfx2

theorem scriptQuiet_dSfx0 : ∀ n, ScriptQuiet (csDSfx0.drop n) :=
  dropAll_append ScriptQuiet csD0 csDSfx1 160 (by decide) (by decide) scriptQuiet_dSfx1

theorem scriptQuiet_tail5 : ∀ n, ScriptQuiet (csTail5.drop n) :=
  dropAll_append ScriptQuiet ("example.com" : String).data csD 11 (by decide) (by decide) scriptQuiet_dSfx0

theorem scriptQuiet_tail4 : ∀ n, ScriptQuiet (csTail4.drop n) :=
  dropAll_append ScriptQuiet csC csTail5 30 (by decide) (by decide) scriptQuiet_tail5

theorem scriptQuiet_tail3 : ∀ n, ScriptQuiet (csTail3.drop n) :=
  dropAll_append ScriptQuiet ("proxywarp.com" : String).data csTail4 13 (by decide) (by decide) scriptQuiet_tail4

theorem scriptQuiet_tail2 : ∀ n, ScriptQuiet (csTail2.drop n) :=
  dropAll_append ScriptQuiet csB csTail3 34 (by decide) (by decide) scriptQuiet_tail3

theorem scriptQuiet_tail1 : ∀ n, ScriptQuiet (csTail1.drop n) :=
  dropAll_append ScriptQuiet ("abc123" : String).data csTail2 6 (by decide) (by decide) scriptQuiet_tail2

theorem scriptQuiet_tail0 : ∀ n, ScriptQuiet (csTail0.drop n) :=
  dropAll_append ScriptQuiet csA csTail1 105 (by decide) (by decide) scriptQuiet_tail1

/-! ## Stage-identity lemmas and the C4 theorems -/

theorem scanReplace_id (tryAt : List Char → Option (List Char × List Char)) (s : List Char)
    (h : ∀ n, tryAt (s.drop n) = none) : ∀ fuel, scanReplace tryAt fuel s = s := by
  induction s with
  | nil => intro fuel; cases fuel <;> rfl
  | cons c rest ih =>
    intro fuel
    cases fuel with
    | zero => rfl
    | succ f =>
      have h0 : tryAt (c :: rest) = none := by simpa using h 0
      simp only [scanReplace, h0]
      rw [ih (fun n => by simpa using h (n + 1)) f]

theorem existsBaseTag_eq_false (s : List Char) (h : ∀ n, tryBaseTagAt (s.drop n) = false) :
    existsBaseTag s = false := by
  induction s with
  | nil => rfl
  | cons c rest ih =>
    have h0 : tryBaseTagAt (c :: rest) = false := by simpa using h 0
    simp only [existsBaseTag, h0, Bool.false_or]
    exact ih (fun n => by simpa using h (n + 1))

theorem replaceHeadFirst_id (ins s : List Char) (h : ∀ n, tryHeadAt (s.drop n) = none) :
    replaceHeadFirst ins s = s := by
  induction s with
  | nil => rfl
  | cons c rest ih =>
    have h0 : tryHeadAt (c :: rest) = none := by simpa using h 0
    simp only [replaceHeadFirst, h0]
    rw [ih (fun n => by simpa using h (n + 1))]

theorem containsL_eq_false (pat s : List Char) (h : ∀ n, pat.isPrefixOf (s.drop n) = false) :
    containsL pat s = false := by
  induction s with
  | nil =>
    have h0 : pat.isPrefixOf [] = false := by simpa using h 0
    cases pat with
    | nil => simp at h0
    | cons p ps => rfl
  | cons c rest ih =>
    have h0 : pat.isPrefixOf (c :: rest) = false := by simpa using h 0
    simp only [containsL, h0, Bool.false_or]
    exact ih (fun n => by simpa using h (n + 1))

theorem gcs_data_eq :
    (generateClientScript "abc123" BASE_DOMAIN "example.com").data = csTail0 := rfl

theorem scriptQuiet_gcs :
    ∀ n, ScriptQuiet ((generateClientScript "abc123" BASE_DOMAIN "example.com").data.drop n) := by
  intro n
  rw [gcs_data_eq]
  exact scriptQuiet_tail0 n

/-- The first run on the empty body injects exactly the client script. -/
theorem rewrite_empty_eq :
    rewriteHtmlBody c4Info "abc123" ""
      = generateClientScript "abc123" BASE_DOMAIN "example.com" := rfl

/-- The second run leaves the once-injected script untouched by rules
1–4 and appends a second copy of the script. -/
theorem rewrite_script_eq :
    rewriteHtmlBody c4Info "abc123" (generateClientScript "abc123" BASE_DOMAIN "example.com")
      = generateClientScript "abc123" BASE_DOMAIN "example.com"
        ++ generateClientScript "abc123" BASE_DOMAIN "example.com" := by
  have hq := scriptQuiet_gcs
  have h1 : applyRule1 c4Info "abc123"
      (generateClientScript "abc123" BASE_DOMAIN "example.com").data
      = (generateClientScript "abc123" BASE_DOMAIN "example.com").data :=
    scanReplace_id _ _ (fun n => (hq n).1) _
  have h2 : applyRule2 "abc123"
      (generateClientScript "abc123" BASE_DOMAIN "example.com").data
      = (generateClientScript "abc123" BASE_DOMAIN "example.com").data :=
    scanReplace_id _ _ (fun n => (hq n).2.1) _
  have h3 : applyRule3 c4Info "abc123"
      (generateClientScript "abc123" BASE_DOMAIN "example.com").data
      = (generateClientScript "abc123" BASE_DOMAIN "example.com").data :=
    scanReplace_id _ _ (fun n => (hq n).2.2.1) _
  have h4 : stage4BaseTag "abc123"
      (generateClientScript "abc123" BASE_DOMAIN "example.com").data
      = (generateClientScript "abc123" BASE_DOMAIN "example.com").data := by
    unfold stage4BaseTag
    have hb : existsBaseTag
        (generateClientScript "abc123" BASE_DOMAIN "example.com").data = false :=
      existsBaseTag_eq_false _ (fun n => (hq n).2.2.2.1)
    rw [if_neg (by simp [hb])]
    exact replaceHeadFirst_id _ _ (fun n => (hq n).2.2.2.2.1)
  have h5 : stage5InjectScript (generateClientScript "abc123" BASE_DOMAIN "example.com")
      (generateClientScript "abc123" BASE_DOMAIN "example.com").data
      = (generateClientScript "abc123" BASE_DOMAIN "example.com").data
        ++ (generateClientScript "abc123" BASE_DOMAIN "example.com").data := by
    unfold stage5InjectScript
    have hc : containsL "</body>".data
        (generateClientScript "abc123" BASE_DOMAIN "example.com").data = false :=
      containsL_eq_false _ _ (fun n => (hq n).2.2.2.2.2)
    rw [if_neg (by simp [hc])]
  show (⟨stage5InjectScript (generateClientScript "abc123" BASE_DOMAIN c4Info.domain)
    (stage4BaseTag "abc123" (applyRule3 c4Info "abc123" (applyRule2 "abc123"
      (applyRule1 c4Info "abc123"
        (generateClientScript "abc123" BASE_DOMAIN "example.com").data))))⟩ : String) = _
  rw [h1, h2, h3, h4]
  show (⟨stage5InjectScript (generateClientScript "abc123" BASE_DOMAIN "example.com")
    (generateClientScript "abc123" BASE_DOMAIN "example.com").data⟩ : String) = _
  rw [h5]
  rfl

/-- Appending the (non-empty) script twice differs from once. -/
theorem gcs_self_append_ne :
    generateClientScript "abc123" BASE_DOMAIN "example.com"
        ++ generateClientScript "abc123" BASE_DOMAIN "example.com"
      ≠ generateClientScript "abc123" BASE_DOMAIN "example.com" := by
  intro h
  have hd : (generateClientScript "abc123" BASE_DOMAIN "example.com").data
      ++ (generateClientScript "abc123" BASE_DOMAIN "example.com").data
      = (generateClientScript "abc123" BASE_DOMAIN "example.com").data :=
    congrArg String.data h
  have hlen := congrArg List.length hd
  rw [List.length_append] at hlen
  have h0 : (generateClientScript "abc123" BASE_DOMAIN "example.com").data.length = 0 := by
    omega
  have hnil : (generateClientScript "abc123" BASE_DOMAIN "example.com").data = [] :=
    List.length_eq_zero.mp h0
  rw [gcs_data_eq] at hnil
  have hnil' : csA ++ csTail1 = [] := hnil
  have hA : csA = [] := (List.append_eq_nil.mp hnil').1
  exact absurd hA (by decide)

/-- C4, counterexample.  The rewrite pipeline is not idempotent: on
the empty body the first run injects the client script and the second
run injects a second copy, so running the rewriter twice differs from
running it once. -/
theorem c4_counterexample :
    rewriteHtmlBody c4Info "abc123" (rewriteHtmlBody c4Info "abc123" "")
      ≠ rewriteHtmlBody c4Info "abc123" "" := by
  rw [rewrite_empty_eq, rewrite_script_eq]
  exact gcs_self_append_ne

/-- C4 (amended).  The URL rules, the form rule and the base-tag rule
are no-ops on the once-rewritten output (the injected script contains
no `href=`/`src=`-quote pattern, no rewritable `<form …action=`, no
`<base`/`<head` tag and no `</body>`), but the client-script stage
re-fires on every run: the second run equals the first with one more
copy of the script appended, so the pipeline is *not* idempotent. -/
theorem c4_rewrite_not_idempotent :
    rewriteHtmlBody c4Info "abc123" ""
        = generateClientScript "abc123" BASE_DOMAIN "example.com" ∧
    rewriteHtmlBody c4Info "abc123" (rewriteHtmlBody c4Info "abc123" "")
        = rewriteHtmlBody c4Info "abc123" ""
          ++ generateClientScript "abc123" BASE_DOMAIN "example.com" ∧
    rewriteHtmlBody c4Info "abc123" (rewriteHtmlBody c4Info "abc123" "")
        ≠ rewriteHtmlBody c4Info "abc123" "" := by
  refine ⟨rewrite_empty_eq, ?_, ?_⟩
  · rw [rewrite_empty_eq, rewrite_script_eq]
  · rw [rewrite_empty_eq, rewrite_script_eq]
    exact gcs_self_append_ne
